import Mathlib

/-!
# Verification of the `wait_for_*` polling core of the Cybrid demo app

The repository's one recurring piece of logic is the bounded-polling loop used
by eleven `wait_for_<resource>` functions in `app/helpers/common.py`.  Each of
them has the shape

    sleep_count = 0
    state = resource.state
    final_states = expected_states
    while state not in final_states and sleep_count < Config.TIMEOUT:
        time.sleep(1)
        sleep_count += 1
        resource = get_<resource>(api_client, resource.guid)
        state = resource.state
    if state not in final_states:
        raise BadResultError(f"<Label> has invalid state: {state}")
    # log success; the Python function then returns None

We embed each of the eleven functions separately (they are transcribed one by
one from the source), together with the generic `ResourceStatePoller` that the
specification describes, and prove the spec's properties about them.

Modelling conventions:
* A resource snapshot is its stable identifier `guid` plus its lifecycle
  `state` (both strings), the only two fields the loops consult.
* The remote service evolves over time, so the primitive SDK fetch
  (`api_instance.get_<resource>(guid)`) is modelled as a function
  `api_get : Nat → String → Except ε Snapshot`: `api_get k g` is the outcome of
  the `k`-th fetch call (1-based) when called with identifier `g`; a fetch that
  raises is `Except.error e`.
* Side effects are recorded as an explicit event trace (`Ev`): one `Ev.sleep`
  for each `time.sleep(1)` and one `Ev.fetch` for each call of the accessor
  (including a call that raises).  `Ev.mutate` stands for any write/mutating
  API call; the wait functions never emit it.
* The Python wait functions return `None`; their observable result is whether
  they return normally, raise `BadResultError(msg)`, or let an accessor
  exception escape.  The embedding's `PollResult.ok cur` records a normal
  return together with the final value of the local resource variable (the
  latest snapshot held when the loop exits), which the source also reports in
  its success log line.  Snapshots are immutable values, mirroring that the
  source only rebinds its local name and never writes to the object.
* `app/helpers/exceptions.py` is not part of the sources; `BadResultError` is
  modelled from its use sites as an error value carrying its message string.
* Logging calls are pure observations and are not modelled.
-/

/-- A snapshot of a remote resource: its stable identifier `guid` and its
current lifecycle `state`.  Every pollable resource of the app (customer,
account, trade, transfer, …) exposes exactly these two fields to the loops. -/
structure Snapshot where
  guid : String
  state : String
deriving DecidableEq, Repr

/-- External effects performed by the app, as recorded in a trace:
`sleep` is one `time.sleep(1)`, `fetch` is one call of the read accessor,
`mutate` is any write/mutating API call (present in the effect vocabulary so
that non-mutation is a real statement; the wait functions never emit it). -/
inductive Ev where
  | sleep
  | fetch
  | mutate
deriving DecidableEq, Repr

/-- How the `while` loop of a wait function ends: normally (`done cur`, with
`cur` the final value of the resource variable), or because the accessor
raised (`err e`). -/
inductive LoopEnd (ε : Type) where
  | done (cur : Snapshot)
  | err (e : ε)
deriving DecidableEq, Repr

/-- The observable outcome of one `wait_for_<resource>` call:
`ok cur` — the function returns normally, `cur` being the final value of its
local resource variable; `badResult msg` — it raises `BadResultError(msg)`;
`accessorErr e` — an exception raised by the accessor propagates unchanged. -/
inductive PollResult (ε : Type) where
  | ok (cur : Snapshot)
  | badResult (msg : String)
  | accessorErr (e : ε)
deriving DecidableEq, Repr

/-- The trace of `n` loop iterations that all completed their fetch:
`n` repetitions of `sleep` followed by `fetch`, exactly in source order
(`time.sleep(1)`, then `sleep_count += 1`, then the accessor call). -/
def sleepFetchEvents (n : Nat) : List Ev :=
  (List.replicate n [Ev.sleep, Ev.fetch]).flatten

namespace Config

/-- Embeds `Config.TIMEOUT` from `app/config.py`:
`int(os.getenv("TIMEOUT", default=30))` — the environment-supplied polling
budget, defaulting to 30.  The (already parsed, nonnegative) environment value
is the argument. -/
def TIMEOUT (envTIMEOUT : Option Nat) : Nat :=
  envTIMEOUT.getD 30

end Config

/-- Function `get_customer` from `app/helpers/common.py`: calls the SDK fetch and, on
`OpenApiException`, logs and re-raises the same exception (identity on
errors). -/
def get_customer {ε : Type} (api_get : Nat → String → Except ε Snapshot)
    (attempt : Nat) (guid : String) : Except ε Snapshot :=
  match api_get attempt guid with
  | Except.error e => Except.error e
  | Except.ok customer => Except.ok customer

/-- The `while` loop of `wait_for_customer` (common.py lines 199–206):
while the state is not accepted and `sleep_count < timeout`, sleep one unit,
increment `sleep_count`, re-fetch by the current snapshot's guid, rebind. -/
def wait_for_customer_loop {ε : Type} (api_get : Nat → String → Except ε Snapshot)
    (final_states : List String) (timeout : Nat)
    (customer : Snapshot) (sleep_count : Nat) : List Ev × LoopEnd ε :=
  if h : customer.state ∉ final_states ∧ sleep_count < timeout then
    match get_customer api_get (sleep_count + 1) customer.guid with
    | Except.error e => ([Ev.sleep, Ev.fetch], LoopEnd.err e)
    | Except.ok next =>
        let r := wait_for_customer_loop api_get final_states timeout next (sleep_count + 1)
        (Ev.sleep :: Ev.fetch :: r.1, r.2)
  else ([], LoopEnd.done customer)
termination_by timeout - sleep_count
decreasing_by omega

/-- Function `wait_for_customer` (common.py lines 194–210): run the loop from
`sleep_count = 0`; afterwards, if the state is still not accepted raise
`BadResultError(f"Customer has invalid state: {state}")`, else log and return
normally. -/
def wait_for_customer {ε : Type} (api_get : Nat → String → Except ε Snapshot)
    (customer : Snapshot) (expected_states : List String) (timeout : Nat) :
    List Ev × PollResult ε :=
  let final_states := expected_states
  match wait_for_customer_loop api_get final_states timeout customer 0 with
  | (evs, LoopEnd.err e) => (evs, PollResult.accessorErr e)
  | (evs, LoopEnd.done cur) =>
      if cur.state ∉ final_states then
        (evs, PollResult.badResult ("Customer has invalid state: " ++ cur.state))
      else
        (evs, PollResult.ok cur)

/-- Shared shape of the eleven wait loops, used as the common target of the
per-resource equivalence lemmas (each `wait_for_<resource>_loop` below is a
verbatim transcription of its own source loop and is then proved equal to
this one). -/
def pollLoop {ε : Type} (api_get : Nat → String → Except ε Snapshot)
    (final_states : List String) (timeout : Nat)
    (cur : Snapshot) (sleep_count : Nat) : List Ev × LoopEnd ε :=
  if h : cur.state ∉ final_states ∧ sleep_count < timeout then
    match api_get (sleep_count + 1) cur.guid with
    | Except.error e => ([Ev.sleep, Ev.fetch], LoopEnd.err e)
    | Except.ok next =>
        let r := pollLoop api_get final_states timeout next (sleep_count + 1)
        (Ev.sleep :: Ev.fetch :: r.1, r.2)
  else ([], LoopEnd.done cur)
termination_by timeout - sleep_count
decreasing_by omega

/-- Shared shape of a whole wait function: the loop from `sleep_count = 0`
followed by the `BadResultError` check, with `label` the resource-specific
message text in front of the state. -/
def pollWait {ε : Type} (label : String) (api_get : Nat → String → Except ε Snapshot)
    (cur : Snapshot) (expected_states : List String) (timeout : Nat) :
    List Ev × PollResult ε :=
  match pollLoop api_get expected_states timeout cur 0 with
  | (evs, LoopEnd.err e) => (evs, PollResult.accessorErr e)
  | (evs, LoopEnd.done c) =>
      if c.state ∉ expected_states then
        (evs, PollResult.badResult (label ++ c.state))
      else
        (evs, PollResult.ok c)

/-- Function `get_account` from `app/helpers/common.py` (lines 245–257): calls the
SDK fetch and, on `OpenApiException`, logs and re-raises the same exception
(identity on errors). -/
def get_account {ε : Type} (api_get : Nat → String → Except ε Snapshot)
    (attempt : Nat) (guid : String) : Except ε Snapshot :=
  match api_get attempt guid with
  | Except.error e => Except.error e
  | Except.ok account => Except.ok account

/-- The `while` loop of `wait_for_account` (common.py lines 266–270): while the
state is not accepted and `sleep_count < timeout`, sleep one unit, increment
`sleep_count`, re-fetch by the current snapshot's guid, rebind. -/
def wait_for_account_loop {ε : Type} (api_get : Nat → String → Except ε Snapshot)
    (final_states : List String) (timeout : Nat)
    (account : Snapshot) (sleep_count : Nat) : List Ev × LoopEnd ε :=
  if h : account.state ∉ final_states ∧ sleep_count < timeout then
    match get_account api_get (sleep_count + 1) account.guid with
    | Except.error e => ([Ev.sleep, Ev.fetch], LoopEnd.err e)
    | Except.ok next =>
        let r := wait_for_account_loop api_get final_states timeout next (sleep_count + 1)
        (Ev.sleep :: Ev.fetch :: r.1, r.2)
  else ([], LoopEnd.done account)
termination_by timeout - sleep_count
decreasing_by omega

/-- Function `wait_for_account` (common.py lines 260–274): run the loop from
`sleep_count = 0`; afterwards, if the state is still not accepted raise
`BadResultError` with message `"Account has invalid state: " ++ state`, else log and return
normally. -/
def wait_for_account {ε : Type} (api_get : Nat → String → Except ε Snapshot)
    (account : Snapshot) (expected_states : List String) (timeout : Nat) :
    List Ev × PollResult ε :=
  let final_states := expected_states
  match wait_for_account_loop api_get final_states timeout account 0 with
  | (evs, LoopEnd.err e) => (evs, PollResult.accessorErr e)
  | (evs, LoopEnd.done cur) =>
      if cur.state ∉ final_states then
        (evs, PollResult.badResult ("Account has invalid state: " ++ cur.state))
      else
        (evs, PollResult.ok cur)

/-- Function `get_deposit_address` from `app/helpers/common.py` (lines 295–309): calls the
SDK fetch and, on `OpenApiException`, logs and re-raises the same exception
(identity on errors). -/
def get_deposit_address {ε : Type} (api_get : Nat → String → Except ε Snapshot)
    (attempt : Nat) (guid : String) : Except ε Snapshot :=
  match api_get attempt guid with
  | Except.error e => Except.error e
  | Except.ok address => Except.ok address

/-- The `while` loop of `wait_for_deposit_address` (common.py lines 320–324): while the
state is not accepted and `sleep_count < timeout`, sleep one unit, increment
`sleep_count`, re-fetch by the current snapshot's guid, rebind. -/
def wait_for_deposit_address_loop {ε : Type} (api_get : Nat → String → Except ε Snapshot)
    (final_states : List String) (timeout : Nat)
    (address : Snapshot) (sleep_count : Nat) : List Ev × LoopEnd ε :=
  if h : address.state ∉ final_states ∧ sleep_count < timeout then
    match get_deposit_address api_get (sleep_count + 1) address.guid with
    | Except.error e => ([Ev.sleep, Ev.fetch], LoopEnd.err e)
    | Except.ok next =>
        let r := wait_for_deposit_address_loop api_get final_states timeout next (sleep_count + 1)
        (Ev.sleep :: Ev.fetch :: r.1, r.2)
  else ([], LoopEnd.done address)
termination_by timeout - sleep_count
decreasing_by omega

/-- Function `wait_for_deposit_address` (common.py lines 312–328): run the loop from
`sleep_count = 0`; afterwards, if the state is still not accepted raise
`BadResultError` with message `"Deposit address has invalid state: " ++ state`, else log and return
normally. -/
def wait_for_deposit_address {ε : Type} (api_get : Nat → String → Except ε Snapshot)
    (address : Snapshot) (expected_states : List String) (timeout : Nat) :
    List Ev × PollResult ε :=
  let final_states := expected_states
  match wait_for_deposit_address_loop api_get final_states timeout address 0 with
  | (evs, LoopEnd.err e) => (evs, PollResult.accessorErr e)
  | (evs, LoopEnd.done cur) =>
      if cur.state ∉ final_states then
        (evs, PollResult.badResult ("Deposit address has invalid state: " ++ cur.state))
      else
        (evs, PollResult.ok cur)

/-- Function `get_deposit_bank_account` from `app/helpers/common.py` (lines 351–365): calls the
SDK fetch and, on `OpenApiException`, logs and re-raises the same exception
(identity on errors). -/
def get_deposit_bank_account {ε : Type} (api_get : Nat → String → Except ε Snapshot)
    (attempt : Nat) (guid : String) : Except ε Snapshot :=
  match api_get attempt guid with
  | Except.error e => Except.error e
  | Except.ok account => Except.ok account

/-- The `while` loop of `wait_for_deposit_bank_account` (common.py lines 376–380): while the
state is not accepted and `sleep_count < timeout`, sleep one unit, increment
`sleep_count`, re-fetch by the current snapshot's guid, rebind. -/
def wait_for_deposit_bank_account_loop {ε : Type} (api_get : Nat → String → Except ε Snapshot)
    (final_states : List String) (timeout : Nat)
    (account : Snapshot) (sleep_count : Nat) : List Ev × LoopEnd ε :=
  if h : account.state ∉ final_states ∧ sleep_count < timeout then
    match get_deposit_bank_account api_get (sleep_count + 1) account.guid with
    | Except.error e => ([Ev.sleep, Ev.fetch], LoopEnd.err e)
    | Except.ok next =>
        let r := wait_for_deposit_bank_account_loop api_get final_states timeout next (sleep_count + 1)
        (Ev.sleep :: Ev.fetch :: r.1, r.2)
  else ([], LoopEnd.done account)
termination_by timeout - sleep_count
decreasing_by omega

/-- Function `wait_for_deposit_bank_account` (common.py lines 368–384): run the loop from
`sleep_count = 0`; afterwards, if the state is still not accepted raise
`BadResultError` with message `"Deposit account has invalid state: " ++ state`, else log and return
normally. -/
def wait_for_deposit_bank_account {ε : Type} (api_get : Nat → String → Except ε Snapshot)
    (account : Snapshot) (expected_states : List String) (timeout : Nat) :
    List Ev × PollResult ε :=
  let final_states := expected_states
  match wait_for_deposit_bank_account_loop api_get final_states timeout account 0 with
  | (evs, LoopEnd.err e) => (evs, PollResult.accessorErr e)
  | (evs, LoopEnd.done cur) =>
      if cur.state ∉ final_states then
        (evs, PollResult.badResult ("Deposit account has invalid state: " ++ cur.state))
      else
        (evs, PollResult.ok cur)

/-- Function `get_identity_verification` from `app/helpers/common.py` (lines 426–440): calls the
SDK fetch and, on `OpenApiException`, logs and re-raises the same exception
(identity on errors). -/
def get_identity_verification {ε : Type} (api_get : Nat → String → Except ε Snapshot)
    (attempt : Nat) (guid : String) : Except ε Snapshot :=
  match api_get attempt guid with
  | Except.error e => Except.error e
  | Except.ok identity_verification => Except.ok identity_verification

/-- The `while` loop of `wait_for_identity_verification` (common.py lines 451–459): while the
state is not accepted and `sleep_count < timeout`, sleep one unit, increment
`sleep_count`, re-fetch by the current snapshot's guid, rebind. -/
def wait_for_identity_verification_loop {ε : Type} (api_get : Nat → String → Except ε Snapshot)
    (final_states : List String) (timeout : Nat)
    (identity_verification : Snapshot) (sleep_count : Nat) : List Ev × LoopEnd ε :=
  if h : identity_verification.state ∉ final_states ∧ sleep_count < timeout then
    match get_identity_verification api_get (sleep_count + 1) identity_verification.guid with
    | Except.error e => ([Ev.sleep, Ev.fetch], LoopEnd.err e)
    | Except.ok next =>
        let r := wait_for_identity_verification_loop api_get final_states timeout next (sleep_count + 1)
        (Ev.sleep :: Ev.fetch :: r.1, r.2)
  else ([], LoopEnd.done identity_verification)
termination_by timeout - sleep_count
decreasing_by omega

/-- Function `wait_for_identity_verification` (common.py lines 443–467): run the loop from
`sleep_count = 0`; afterwards, if the state is still not accepted raise
`BadResultError` with message `"Identity verification has invalid state: " ++ state`, else log and return
normally. -/
def wait_for_identity_verification {ε : Type} (api_get : Nat → String → Except ε Snapshot)
    (identity_verification : Snapshot) (expected_states : List String) (timeout : Nat) :
    List Ev × PollResult ε :=
  let final_states := expected_states
  match wait_for_identity_verification_loop api_get final_states timeout identity_verification 0 with
  | (evs, LoopEnd.err e) => (evs, PollResult.accessorErr e)
  | (evs, LoopEnd.done cur) =>
      if cur.state ∉ final_states then
        (evs, PollResult.badResult ("Identity verification has invalid state: " ++ cur.state))
      else
        (evs, PollResult.ok cur)

/-- Function `get_transfer` from `app/helpers/common.py` (lines 584–596): calls the
SDK fetch and, on `OpenApiException`, logs and re-raises the same exception
(identity on errors). -/
def get_transfer {ε : Type} (api_get : Nat → String → Except ε Snapshot)
    (attempt : Nat) (guid : String) : Except ε Snapshot :=
  match api_get attempt guid with
  | Except.error e => Except.error e
  | Except.ok transfer => Except.ok transfer

/-- The `while` loop of `wait_for_transfer` (common.py lines 607–611): while the
state is not accepted and `sleep_count < timeout`, sleep one unit, increment
`sleep_count`, re-fetch by the current snapshot's guid, rebind. -/
def wait_for_transfer_loop {ε : Type} (api_get : Nat → String → Except ε Snapshot)
    (final_states : List String) (timeout : Nat)
    (transfer : Snapshot) (sleep_count : Nat) : List Ev × LoopEnd ε :=
  if h : transfer.state ∉ final_states ∧ sleep_count < timeout then
    match get_transfer api_get (sleep_count + 1) transfer.guid with
    | Except.error e => ([Ev.sleep, Ev.fetch], LoopEnd.err e)
    | Except.ok next =>
        let r := wait_for_transfer_loop api_get final_states timeout next (sleep_count + 1)
        (Ev.sleep :: Ev.fetch :: r.1, r.2)
  else ([], LoopEnd.done transfer)
termination_by timeout - sleep_count
decreasing_by omega

/-- Function `wait_for_transfer` (common.py lines 599–615): run the loop from
`sleep_count = 0`; afterwards, if the state is still not accepted raise
`BadResultError` with message `"Transfer has invalid state: " ++ state`, else log and return
normally. -/
def wait_for_transfer {ε : Type} (api_get : Nat → String → Except ε Snapshot)
    (transfer : Snapshot) (expected_states : List String) (timeout : Nat) :
    List Ev × PollResult ε :=
  let final_states := expected_states
  match wait_for_transfer_loop api_get final_states timeout transfer 0 with
  | (evs, LoopEnd.err e) => (evs, PollResult.accessorErr e)
  | (evs, LoopEnd.done cur) =>
      if cur.state ∉ final_states then
        (evs, PollResult.badResult ("Transfer has invalid state: " ++ cur.state))
      else
        (evs, PollResult.ok cur)

/-- Function `get_trade` from `app/helpers/common.py` (lines 634–646): calls the
SDK fetch and, on `OpenApiException`, logs and re-raises the same exception
(identity on errors). -/
def get_trade {ε : Type} (api_get : Nat → String → Except ε Snapshot)
    (attempt : Nat) (guid : String) : Except ε Snapshot :=
  match api_get attempt guid with
  | Except.error e => Except.error e
  | Except.ok trade => Except.ok trade

/-- The `while` loop of `wait_for_trade` (common.py lines 655–659): while the
state is not accepted and `sleep_count < timeout`, sleep one unit, increment
`sleep_count`, re-fetch by the current snapshot's guid, rebind. -/
def wait_for_trade_loop {ε : Type} (api_get : Nat → String → Except ε Snapshot)
    (final_states : List String) (timeout : Nat)
    (trade : Snapshot) (sleep_count : Nat) : List Ev × LoopEnd ε :=
  if h : trade.state ∉ final_states ∧ sleep_count < timeout then
    match get_trade api_get (sleep_count + 1) trade.guid with
    | Except.error e => ([Ev.sleep, Ev.fetch], LoopEnd.err e)
    | Except.ok next =>
        let r := wait_for_trade_loop api_get final_states timeout next (sleep_count + 1)
        (Ev.sleep :: Ev.fetch :: r.1, r.2)
  else ([], LoopEnd.done trade)
termination_by timeout - sleep_count
decreasing_by omega

/-- Function `wait_for_trade` (common.py lines 649–663): run the loop from
`sleep_count = 0`; afterwards, if the state is still not accepted raise
`BadResultError` with message `"Trade has invalid state: " ++ state`, else log and return
normally. -/
def wait_for_trade {ε : Type} (api_get : Nat → String → Except ε Snapshot)
    (trade : Snapshot) (expected_states : List String) (timeout : Nat) :
    List Ev × PollResult ε :=
  let final_states := expected_states
  match wait_for_trade_loop api_get final_states timeout trade 0 with
  | (evs, LoopEnd.err e) => (evs, PollResult.accessorErr e)
  | (evs, LoopEnd.done cur) =>
      if cur.state ∉ final_states then
        (evs, PollResult.badResult ("Trade has invalid state: " ++ cur.state))
      else
        (evs, PollResult.ok cur)

/-- Function `get_external_wallet` from `app/helpers/common.py` (lines 708–720): calls the
SDK fetch and, on `OpenApiException`, logs and re-raises the same exception
(identity on errors). -/
def get_external_wallet {ε : Type} (api_get : Nat → String → Except ε Snapshot)
    (attempt : Nat) (guid : String) : Except ε Snapshot :=
  match api_get attempt guid with
  | Except.error e => Except.error e
  | Except.ok external_wallet => Except.ok external_wallet

/-- The `while` loop of `wait_for_external_wallet` (common.py lines 731–735): while the
state is not accepted and `sleep_count < timeout`, sleep one unit, increment
`sleep_count`, re-fetch by the current snapshot's guid, rebind. -/
def wait_for_external_wallet_loop {ε : Type} (api_get : Nat → String → Except ε Snapshot)
    (final_states : List String) (timeout : Nat)
    (external_wallet : Snapshot) (sleep_count : Nat) : List Ev × LoopEnd ε :=
  if h : external_wallet.state ∉ final_states ∧ sleep_count < timeout then
    match get_external_wallet api_get (sleep_count + 1) external_wallet.guid with
    | Except.error e => ([Ev.sleep, Ev.fetch], LoopEnd.err e)
    | Except.ok next =>
        let r := wait_for_external_wallet_loop api_get final_states timeout next (sleep_count + 1)
        (Ev.sleep :: Ev.fetch :: r.1, r.2)
  else ([], LoopEnd.done external_wallet)
termination_by timeout - sleep_count
decreasing_by omega

/-- Function `wait_for_external_wallet` (common.py lines 723–743): run the loop from
`sleep_count = 0`; afterwards, if the state is still not accepted raise
`BadResultError` with message `"External wallet has invalid state: " ++ state`, else log and return
normally. -/
def wait_for_external_wallet {ε : Type} (api_get : Nat → String → Except ε Snapshot)
    (external_wallet : Snapshot) (expected_states : List String) (timeout : Nat) :
    List Ev × PollResult ε :=
  let final_states := expected_states
  match wait_for_external_wallet_loop api_get final_states timeout external_wallet 0 with
  | (evs, LoopEnd.err e) => (evs, PollResult.accessorErr e)
  | (evs, LoopEnd.done cur) =>
      if cur.state ∉ final_states then
        (evs, PollResult.badResult ("External wallet has invalid state: " ++ cur.state))
      else
        (evs, PollResult.ok cur)

/-- Function `get_workflow` from `app/helpers/common.py` (lines 774–786): calls the
SDK fetch and, on `OpenApiException`, logs and re-raises the same exception
(identity on errors). -/
def get_workflow {ε : Type} (api_get : Nat → String → Except ε Snapshot)
    (attempt : Nat) (guid : String) : Except ε Snapshot :=
  match api_get attempt guid with
  | Except.error e => Except.error e
  | Except.ok workflow => Except.ok workflow

/-- The `while` loop of `wait_for_workflow` (common.py lines 797–801): while the
state is not accepted and `sleep_count < timeout`, sleep one unit, increment
`sleep_count`, re-fetch by the current snapshot's guid, rebind. -/
def wait_for_workflow_loop {ε : Type} (api_get : Nat → String → Except ε Snapshot)
    (final_states : List String) (timeout : Nat)
    (workflow : Snapshot) (sleep_count : Nat) : List Ev × LoopEnd ε :=
  if h : workflow.state ∉ final_states ∧ sleep_count < timeout then
    match get_workflow api_get (sleep_count + 1) workflow.guid with
    | Except.error e => ([Ev.sleep, Ev.fetch], LoopEnd.err e)
    | Except.ok next =>
        let r := wait_for_workflow_loop api_get final_states timeout next (sleep_count + 1)
        (Ev.sleep :: Ev.fetch :: r.1, r.2)
  else ([], LoopEnd.done workflow)
termination_by timeout - sleep_count
decreasing_by omega

/-- Function `wait_for_workflow` (common.py lines 789–805): run the loop from
`sleep_count = 0`; afterwards, if the state is still not accepted raise
`BadResultError` with message `"Workflow has invalid state: " ++ state`, else log and return
normally.
  The source's local state variable is (misleadingly) named `customer_state`; the semantics are unchanged. -/
def wait_for_workflow {ε : Type} (api_get : Nat → String → Except ε Snapshot)
    (workflow : Snapshot) (expected_states : List String) (timeout : Nat) :
    List Ev × PollResult ε :=
  let final_states := expected_states
  match wait_for_workflow_loop api_get final_states timeout workflow 0 with
  | (evs, LoopEnd.err e) => (evs, PollResult.accessorErr e)
  | (evs, LoopEnd.done cur) =>
      if cur.state ∉ final_states then
        (evs, PollResult.badResult ("Workflow has invalid state: " ++ cur.state))
      else
        (evs, PollResult.ok cur)

/-- Function `get_external_bank_account` from `app/helpers/common.py` (lines 873–887): calls the
SDK fetch and, on `OpenApiException`, logs and re-raises the same exception
(identity on errors). -/
def get_external_bank_account {ε : Type} (api_get : Nat → String → Except ε Snapshot)
    (attempt : Nat) (guid : String) : Except ε Snapshot :=
  match api_get attempt guid with
  | Except.error e => Except.error e
  | Except.ok external_bank_account => Except.ok external_bank_account

/-- The `while` loop of `wait_for_external_bank_account` (common.py lines 898–904): while the
state is not accepted and `sleep_count < timeout`, sleep one unit, increment
`sleep_count`, re-fetch by the current snapshot's guid, rebind. -/
def wait_for_external_bank_account_loop {ε : Type} (api_get : Nat → String → Except ε Snapshot)
    (final_states : List String) (timeout : Nat)
    (external_bank_account : Snapshot) (sleep_count : Nat) : List Ev × LoopEnd ε :=
  if h : external_bank_account.state ∉ final_states ∧ sleep_count < timeout then
    match get_external_bank_account api_get (sleep_count + 1) external_bank_account.guid with
    | Except.error e => ([Ev.sleep, Ev.fetch], LoopEnd.err e)
    | Except.ok next =>
        let r := wait_for_external_bank_account_loop api_get final_states timeout next (sleep_count + 1)
        (Ev.sleep :: Ev.fetch :: r.1, r.2)
  else ([], LoopEnd.done external_bank_account)
termination_by timeout - sleep_count
decreasing_by omega

/-- Function `wait_for_external_bank_account` (common.py lines 890–910): run the loop from
`sleep_count = 0`; afterwards, if the state is still not accepted raise
`BadResultError` with message `"Workflow has invalid state: " ++ state`, else log and return
normally.
  NOTE: the source's error message literally says "Workflow has invalid state" (a copy-paste from `wait_for_workflow`), not "External bank account"; the transcription keeps that text. -/
def wait_for_external_bank_account {ε : Type} (api_get : Nat → String → Except ε Snapshot)
    (external_bank_account : Snapshot) (expected_states : List String) (timeout : Nat) :
    List Ev × PollResult ε :=
  let final_states := expected_states
  match wait_for_external_bank_account_loop api_get final_states timeout external_bank_account 0 with
  | (evs, LoopEnd.err e) => (evs, PollResult.accessorErr e)
  | (evs, LoopEnd.done cur) =>
      if cur.state ∉ final_states then
        (evs, PollResult.badResult ("Workflow has invalid state: " ++ cur.state))
      else
        (evs, PollResult.ok cur)

/-- Function `get_counterparty` from `app/helpers/common.py` (lines 940–952): calls the
SDK fetch and, on `OpenApiException`, logs and re-raises the same exception
(identity on errors). -/
def get_counterparty {ε : Type} (api_get : Nat → String → Except ε Snapshot)
    (attempt : Nat) (guid : String) : Except ε Snapshot :=
  match api_get attempt guid with
  | Except.error e => Except.error e
  | Except.ok counterparty => Except.ok counterparty

/-- The `while` loop of `wait_for_counterparty` (common.py lines 963–967): while the
state is not accepted and `sleep_count < timeout`, sleep one unit, increment
`sleep_count`, re-fetch by the current snapshot's guid, rebind. -/
def wait_for_counterparty_loop {ε : Type} (api_get : Nat → String → Except ε Snapshot)
    (final_states : List String) (timeout : Nat)
    (counterparty : Snapshot) (sleep_count : Nat) : List Ev × LoopEnd ε :=
  if h : counterparty.state ∉ final_states ∧ sleep_count < timeout then
    match get_counterparty api_get (sleep_count + 1) counterparty.guid with
    | Except.error e => ([Ev.sleep, Ev.fetch], LoopEnd.err e)
    | Except.ok next =>
        let r := wait_for_counterparty_loop api_get final_states timeout next (sleep_count + 1)
        (Ev.sleep :: Ev.fetch :: r.1, r.2)
  else ([], LoopEnd.done counterparty)
termination_by timeout - sleep_count
decreasing_by omega

/-- Function `wait_for_counterparty` (common.py lines 955–971): run the loop from
`sleep_count = 0`; afterwards, if the state is still not accepted raise
`BadResultError` with message `"Counterparty has invalid state: " ++ state`, else log and return
normally. -/
def wait_for_counterparty {ε : Type} (api_get : Nat → String → Except ε Snapshot)
    (counterparty : Snapshot) (expected_states : List String) (timeout : Nat) :
    List Ev × PollResult ε :=
  let final_states := expected_states
  match wait_for_counterparty_loop api_get final_states timeout counterparty 0 with
  | (evs, LoopEnd.err e) => (evs, PollResult.accessorErr e)
  | (evs, LoopEnd.done cur) =>
      if cur.state ∉ final_states then
        (evs, PollResult.badResult ("Counterparty has invalid state: " ++ cur.state))
      else
        (evs, PollResult.ok cur)

/-- The snapshot held when a full timeout run ends: the `T`-th fetched
snapshot, or the initial one when the budget is zero and the loop never
iterates. -/
def lastObserved (seq : Nat → Snapshot) (init : Snapshot) (T : Nat) : Snapshot :=
  if 0 < T then seq T else init

/-- Outcome vocabulary of the specification's generic poller (§4.1/§7):
normal return of the current snapshot, `TimeoutExceeded` carrying the stable
identifier and the last observed state, or a fetch error propagated
verbatim. -/
inductive GenResult (ε : Type) where
  | ok (current : Snapshot)
  | timeoutExceeded (ident finalState : String)
  | fetchErr (e : ε)
deriving DecidableEq, Repr

/-- Loop of the generic poller, following the SPEC's words (§4.1 steps 3–4):
sleep one interval, increment the attempt counter, re-fetch via the accessor
using the stable identifier, update `current`; repeat while `current.state`
is not in the acceptance set and the counter is below the budget.  This
definition follows the specification's words (it is the spec side of the
refinement claim); the `wait_for_*` functions above are from the source. -/
def ResourceStatePollerLoop {ε : Type} (accessor : Nat → String → Except ε Snapshot)
    (accept : List String) (budget : Nat) (ident : String)
    (current : Snapshot) (attempts : Nat) : List Ev × LoopEnd ε :=
  if h : current.state ∉ accept ∧ attempts < budget then
    match accessor (attempts + 1) ident with
    | Except.error e => ([Ev.sleep, Ev.fetch], LoopEnd.err e)
    | Except.ok next =>
        let r := ResourceStatePollerLoop accessor accept budget ident next (attempts + 1)
        (Ev.sleep :: Ev.fetch :: r.1, r.2)
  else ([], LoopEnd.done current)
termination_by budget - attempts
decreasing_by omega

/-- The specification's generic `ResourceStatePoller` (§4.1 steps 1–6),
parameterized only by the accessor, the acceptance set, the budget and the
initial snapshot: fast path if already accepted, else loop, then either
return `current` or fail with `TimeoutExceeded` carrying identifier and last
observed state. -/
def ResourceStatePoller {ε : Type} (accessor : Nat → String → Except ε Snapshot)
    (accept : List String) (budget : Nat) (init : Snapshot) : List Ev × GenResult ε :=
  if init.state ∈ accept then ([], GenResult.ok init)
  else
    match ResourceStatePollerLoop accessor accept budget init.guid init 0 with
    | (evs, LoopEnd.err e) => (evs, GenResult.fetchErr e)
    | (evs, LoopEnd.done current) =>
        if current.state ∈ accept then (evs, GenResult.ok current)
        else (evs, GenResult.timeoutExceeded init.guid current.state)

/-- Agreement between a source wait outcome and a spec poller outcome: same
normal-return snapshot, source `BadResultError` exactly when the spec poller
raises `TimeoutExceeded`, and the same propagated accessor error. -/
def agrees {ε : Type} : PollResult ε → GenResult ε → Prop
  | PollResult.ok s, GenResult.ok t => s = t
  | PollResult.badResult _, GenResult.timeoutExceeded _ _ => True
  | PollResult.accessorErr e, GenResult.fetchErr f => e = f
  | _, _ => False

/-- Whether the list `pat` occurs with its elements contiguous at the very
front of `l`. -/
def listHasPre {α : Type} [DecidableEq α] : List α → List α → Bool
  | [], _ => true
  | _ :: _, [] => false
  | a :: pat, b :: l => a = b ∧ listHasPre pat l = true

/-- Whether the list `pat` occurs contiguously anywhere inside `l`
(substring occurrence on character lists). -/
def listHasSub {α : Type} [DecidableEq α] (pat : List α) : List α → Bool
  | [] => listHasPre pat []
  | b :: l => listHasPre pat (b :: l) || listHasSub pat l

lemma get_customer_eq {ε : Type} (api_get : Nat → String → Except ε Snapshot)
    (attempt : Nat) (guid : String) :
    get_customer api_get attempt guid = api_get attempt guid := by
  unfold get_customer
  cases api_get attempt guid <;> rfl

lemma wait_for_customer_loop_eq_aux {ε : Type} (api_get : Nat → String → Except ε Snapshot)
    (fs : List String) (T : Nat) :
    ∀ n cur c, T - c = n →
      wait_for_customer_loop api_get fs T cur c = pollLoop api_get fs T cur c := by
  intro n
  induction n with
  | zero =>
      intro cur c hc
      rw [wait_for_customer_loop, pollLoop]
      have : ¬ (cur.state ∉ fs ∧ c < T) := by
        rintro ⟨-, h2⟩; omega
      rw [dif_neg this, dif_neg this]
  | succ n ih =>
      intro cur c hc
      rw [wait_for_customer_loop, pollLoop]
      by_cases h : cur.state ∉ fs ∧ c < T
      · rw [dif_pos h, dif_pos h, get_customer_eq]
        cases hf : api_get (c + 1) cur.guid with
        | error e => rfl
        | ok next =>
            simp only
            rw [ih next (c + 1) (by omega)]
      · rw [dif_neg h, dif_neg h]

lemma wait_for_customer_loop_eq {ε : Type} (api_get : Nat → String → Except ε Snapshot)
    (fs : List String) (T : Nat) (cur : Snapshot) (c : Nat) :
    wait_for_customer_loop api_get fs T cur c = pollLoop api_get fs T cur c :=
  wait_for_customer_loop_eq_aux api_get fs T (T - c) cur c rfl

lemma wait_for_customer_eq {ε : Type} (api_get : Nat → String → Except ε Snapshot)
    (customer : Snapshot) (es : List String) (T : Nat) :
    wait_for_customer api_get customer es T =
      pollWait "Customer has invalid state: " api_get customer es T := by
  simp only [wait_for_customer, pollWait, wait_for_customer_loop_eq]

lemma get_account_eq {ε : Type} (api_get : Nat → String → Except ε Snapshot)
    (attempt : Nat) (guid : String) :
    get_account api_get attempt guid = api_get attempt guid := by
  unfold get_account
  cases api_get attempt guid <;> rfl

lemma wait_for_account_loop_eq_aux {ε : Type} (api_get : Nat → String → Except ε Snapshot)
    (fs : List String) (T : Nat) :
    ∀ n cur c, T - c = n →
      wait_for_account_loop api_get fs T cur c = pollLoop api_get fs T cur c := by
  intro n
  induction n with
  | zero =>
      intro cur c hc
      rw [wait_for_account_loop, pollLoop]
      have : ¬ (cur.state ∉ fs ∧ c < T) := by
        rintro ⟨-, h2⟩; omega
      rw [dif_neg this, dif_neg this]
  | succ n ih =>
      intro cur c hc
      rw [wait_for_account_loop, pollLoop]
      by_cases h : cur.state ∉ fs ∧ c < T
      · rw [dif_pos h, dif_pos h, get_account_eq]
        cases hf : api_get (c + 1) cur.guid with
        | error e => rfl
        | ok next =>
            simp only
            rw [ih next (c + 1) (by omega)]
      · rw [dif_neg h, dif_neg h]

lemma wait_for_account_loop_eq {ε : Type} (api_get : Nat → String → Except ε Snapshot)
    (fs : List String) (T : Nat) (cur : Snapshot) (c : Nat) :
    wait_for_account_loop api_get fs T cur c = pollLoop api_get fs T cur c :=
  wait_for_account_loop_eq_aux api_get fs T (T - c) cur c rfl

lemma wait_for_account_eq {ε : Type} (api_get : Nat → String → Except ε Snapshot)
    (account : Snapshot) (es : List String) (T : Nat) :
    wait_for_account api_get account es T =
      pollWait "Account has invalid state: " api_get account es T := by
  simp only [wait_for_account, pollWait, wait_for_account_loop_eq]

lemma get_deposit_address_eq {ε : Type} (api_get : Nat → String → Except ε Snapshot)
    (attempt : Nat) (guid : String) :
    get_deposit_address api_get attempt guid = api_get attempt guid := by
  unfold get_deposit_address
  cases api_get attempt guid <;> rfl

lemma wait_for_deposit_address_loop_eq_aux {ε : Type} (api_get : Nat → String → Except ε Snapshot)
    (fs : List String) (T : Nat) :
    ∀ n cur c, T - c = n →
      wait_for_deposit_address_loop api_get fs T cur c = pollLoop api_get fs T cur c := by
  intro n
  induction n with
  | zero =>
      intro cur c hc
      rw [wait_for_deposit_address_loop, pollLoop]
      have : ¬ (cur.state ∉ fs ∧ c < T) := by
        rintro ⟨-, h2⟩; omega
      rw [dif_neg this, dif_neg this]
  | succ n ih =>
      intro cur c hc
      rw [wait_for_deposit_address_loop, pollLoop]
      by_cases h : cur.state ∉ fs ∧ c < T
      · rw [dif_pos h, dif_pos h, get_deposit_address_eq]
        cases hf : api_get (c + 1) cur.guid with
        | error e => rfl
        | ok next =>
            simp only
            rw [ih next (c + 1) (by omega)]
      · rw [dif_neg h, dif_neg h]

lemma wait_for_deposit_address_loop_eq {ε : Type} (api_get : Nat → String → Except ε Snapshot)
    (fs : List String) (T : Nat) (cur : Snapshot) (c : Nat) :
    wait_for_deposit_address_loop api_get fs T cur c = pollLoop api_get fs T cur c :=
  wait_for_deposit_address_loop_eq_aux api_get fs T (T - c) cur c rfl

lemma wait_for_deposit_address_eq {ε : Type} (api_get : Nat → String → Except ε Snapshot)
    (address : Snapshot) (es : List String) (T : Nat) :
    wait_for_deposit_address api_get address es T =
      pollWait "Deposit address has invalid state: " api_get address es T := by
  simp only [wait_for_deposit_address, pollWait, wait_for_deposit_address_loop_eq]

lemma get_deposit_bank_account_eq {ε : Type} (api_get : Nat → String → Except ε Snapshot)
    (attempt : Nat) (guid : String) :
    get_deposit_bank_account api_get attempt guid = api_get attempt guid := by
  unfold get_deposit_bank_account
  cases api_get attempt guid <;> rfl

lemma wait_for_deposit_bank_account_loop_eq_aux {ε : Type} (api_get : Nat → String → Except ε Snapshot)
    (fs : List String) (T : Nat) :
    ∀ n cur c, T - c = n →
      wait_for_deposit_bank_account_loop api_get fs T cur c = pollLoop api_get fs T cur c := by
  intro n
  induction n with
  | zero =>
      intro cur c hc
      rw [wait_for_deposit_bank_account_loop, pollLoop]
      have : ¬ (cur.state ∉ fs ∧ c < T) := by
        rintro ⟨-, h2⟩; omega
      rw [dif_neg this, dif_neg this]
  | succ n ih =>
      intro cur c hc
      rw [wait_for_deposit_bank_account_loop, pollLoop]
      by_cases h : cur.state ∉ fs ∧ c < T
      · rw [dif_pos h, dif_pos h, get_deposit_bank_account_eq]
        cases hf : api_get (c + 1) cur.guid with
        | error e => rfl
        | ok next =>
            simp only
            rw [ih next (c + 1) (by omega)]
      · rw [dif_neg h, dif_neg h]

lemma wait_for_deposit_bank_account_loop_eq {ε : Type} (api_get : Nat → String → Except ε Snapshot)
    (fs : List String) (T : Nat) (cur : Snapshot) (c : Nat) :
    wait_for_deposit_bank_account_loop api_get fs T cur c = pollLoop api_get fs T cur c :=
  wait_for_deposit_bank_account_loop_eq_aux api_get fs T (T - c) cur c rfl

lemma wait_for_deposit_bank_account_eq {ε : Type} (api_get : Nat → String → Except ε Snapshot)
    (account : Snapshot) (es : List String) (T : Nat) :
    wait_for_deposit_bank_account api_get account es T =
      pollWait "Deposit account has invalid state: " api_get account es T := by
  simp only [wait_for_deposit_bank_account, pollWait, wait_for_deposit_bank_account_loop_eq]

lemma get_identity_verification_eq {ε : Type} (api_get : Nat → String → Except ε Snapshot)
    (attempt : Nat) (guid : String) :
    get_identity_verification api_get attempt guid = api_get attempt guid := by
  unfold get_identity_verification
  cases api_get attempt guid <;> rfl

lemma wait_for_identity_verification_loop_eq_aux {ε : Type} (api_get : Nat → String → Except ε Snapshot)
    (fs : List String) (T : Nat) :
    ∀ n cur c, T - c = n →
      wait_for_identity_verification_loop api_get fs T cur c = pollLoop api_get fs T cur c := by
  intro n
  induction n with
  | zero =>
      intro cur c hc
      rw [wait_for_identity_verification_loop, pollLoop]
      have : ¬ (cur.state ∉ fs ∧ c < T) := by
        rintro ⟨-, h2⟩; omega
      rw [dif_neg this, dif_neg this]
  | succ n ih =>
      intro cur c hc
      rw [wait_for_identity_verification_loop, pollLoop]
      by_cases h : cur.state ∉ fs ∧ c < T
      · rw [dif_pos h, dif_pos h, get_identity_verification_eq]
        cases hf : api_get (c + 1) cur.guid with
        | error e => rfl
        | ok next =>
            simp only
            rw [ih next (c + 1) (by omega)]
      · rw [dif_neg h, dif_neg h]

lemma wait_for_identity_verification_loop_eq {ε : Type} (api_get : Nat → String → Except ε Snapshot)
    (fs : List String) (T : Nat) (cur : Snapshot) (c : Nat) :
    wait_for_identity_verification_loop api_get fs T cur c = pollLoop api_get fs T cur c :=
  wait_for_identity_verification_loop_eq_aux api_get fs T (T - c) cur c rfl

lemma wait_for_identity_verification_eq {ε : Type} (api_get : Nat → String → Except ε Snapshot)
    (identity_verification : Snapshot) (es : List String) (T : Nat) :
    wait_for_identity_verification api_get identity_verification es T =
      pollWait "Identity verification has invalid state: " api_get identity_verification es T := by
  simp only [wait_for_identity_verification, pollWait, wait_for_identity_verification_loop_eq]

lemma get_transfer_eq {ε : Type} (api_get : Nat → String → Except ε Snapshot)
    (attempt : Nat) (guid : String) :
    get_transfer api_get attempt guid = api_get attempt guid := by
  unfold get_transfer
  cases api_get attempt guid <;> rfl

lemma wait_for_transfer_loop_eq_aux {ε : Type} (api_get : Nat → String → Except ε Snapshot)
    (fs : List String) (T : Nat) :
    ∀ n cur c, T - c = n →
      wait_for_transfer_loop api_get fs T cur c = pollLoop api_get fs T cur c := by
  intro n
  induction n with
  | zero =>
      intro cur c hc
      rw [wait_for_transfer_loop, pollLoop]
      have : ¬ (cur.state ∉ fs ∧ c < T) := by
        rintro ⟨-, h2⟩; omega
      rw [dif_neg this, dif_neg this]
  | succ n ih =>
      intro cur c hc
      rw [wait_for_transfer_loop, pollLoop]
      by_cases h : cur.state ∉ fs ∧ c < T
      · rw [dif_pos h, dif_pos h, get_transfer_eq]
        cases hf : api_get (c + 1) cur.guid with
        | error e => rfl
        | ok next =>
            simp only
            rw [ih next (c + 1) (by omega)]
      · rw [dif_neg h, dif_neg h]

lemma wait_for_transfer_loop_eq {ε : Type} (api_get : Nat → String → Except ε Snapshot)
    (fs : List String) (T : Nat) (cur : Snapshot) (c : Nat) :
    wait_for_transfer_loop api_get fs T cur c = pollLoop api_get fs T cur c :=
  wait_for_transfer_loop_eq_aux api_get fs T (T - c) cur c rfl

lemma wait_for_transfer_eq {ε : Type} (api_get : Nat → String → Except ε Snapshot)
    (transfer : Snapshot) (es : List String) (T : Nat) :
    wait_for_transfer api_get transfer es T =
      pollWait "Transfer has invalid state: " api_get transfer es T := by
  simp only [wait_for_transfer, pollWait, wait_for_transfer_loop_eq]

lemma get_trade_eq {ε : Type} (api_get : Nat → String → Except ε Snapshot)
    (attempt : Nat) (guid : String) :
    get_trade api_get attempt guid = api_get attempt guid := by
  unfold get_trade
  cases api_get attempt guid <;> rfl

lemma wait_for_trade_loop_eq_aux {ε : Type} (api_get : Nat → String → Except ε Snapshot)
    (fs : List String) (T : Nat) :
    ∀ n cur c, T - c = n →
      wait_for_trade_loop api_get fs T cur c = pollLoop api_get fs T cur c := by
  intro n
  induction n with
  | zero =>
      intro cur c hc
      rw [wait_for_trade_loop, pollLoop]
      have : ¬ (cur.state ∉ fs ∧ c < T) := by
        rintro ⟨-, h2⟩; omega
      rw [dif_neg this, dif_neg this]
  | succ n ih =>
      intro cur c hc
      rw [wait_for_trade_loop, pollLoop]
      by_cases h : cur.state ∉ fs ∧ c < T
      · rw [dif_pos h, dif_pos h, get_trade_eq]
        cases hf : api_get (c + 1) cur.guid with
        | error e => rfl
        | ok next =>
            simp only
            rw [ih next (c + 1) (by omega)]
      · rw [dif_neg h, dif_neg h]

lemma wait_for_trade_loop_eq {ε : Type} (api_get : Nat → String → Except ε Snapshot)
    (fs : List String) (T : Nat) (cur : Snapshot) (c : Nat) :
    wait_for_trade_loop api_get fs T cur c = pollLoop api_get fs T cur c :=
  wait_for_trade_loop_eq_aux api_get fs T (T - c) cur c rfl

lemma wait_for_trade_eq {ε : Type} (api_get : Nat → String → Except ε Snapshot)
    (trade : Snapshot) (es : List String) (T : Nat) :
    wait_for_trade api_get trade es T =
      pollWait "Trade has invalid state: " api_get trade es T := by
  simp only [wait_for_trade, pollWait, wait_for_trade_loop_eq]

lemma get_external_wallet_eq {ε : Type} (api_get : Nat → String → Except ε Snapshot)
    (attempt : Nat) (guid : String) :
    get_external_wallet api_get attempt guid = api_get attempt guid := by
  unfold get_external_wallet
  cases api_get attempt guid <;> rfl

lemma wait_for_external_wallet_loop_eq_aux {ε : Type} (api_get : Nat → String → Except ε Snapshot)
    (fs : List String) (T : Nat) :
    ∀ n cur c, T - c = n →
      wait_for_external_wallet_loop api_get fs T cur c = pollLoop api_get fs T cur c := by
  intro n
  induction n with
  | zero =>
      intro cur c hc
      rw [wait_for_external_wallet_loop, pollLoop]
      have : ¬ (cur.state ∉ fs ∧ c < T) := by
        rintro ⟨-, h2⟩; omega
      rw [dif_neg this, dif_neg this]
  | succ n ih =>
      intro cur c hc
      rw [wait_for_external_wallet_loop, pollLoop]
      by_cases h : cur.state ∉ fs ∧ c < T
      · rw [dif_pos h, dif_pos h, get_external_wallet_eq]
        cases hf : api_get (c + 1) cur.guid with
        | error e => rfl
        | ok next =>
            simp only
            rw [ih next (c + 1) (by omega)]
      · rw [dif_neg h, dif_neg h]

lemma wait_for_external_wallet_loop_eq {ε : Type} (api_get : Nat → String → Except ε Snapshot)
    (fs : List String) (T : Nat) (cur : Snapshot) (c : Nat) :
    wait_for_external_wallet_loop api_get fs T cur c = pollLoop api_get fs T cur c :=
  wait_for_external_wallet_loop_eq_aux api_get fs T (T - c) cur c rfl

lemma wait_for_external_wallet_eq {ε : Type} (api_get : Nat → String → Except ε Snapshot)
    (external_wallet : Snapshot) (es : List String) (T : Nat) :
    wait_for_external_wallet api_get external_wallet es T =
      pollWait "External wallet has invalid state: " api_get external_wallet es T := by
  simp only [wait_for_external_wallet, pollWait, wait_for_external_wallet_loop_eq]

lemma get_workflow_eq {ε : Type} (api_get : Nat → String → Except ε Snapshot)
    (attempt : Nat) (guid : String) :
    get_workflow api_get attempt guid = api_get attempt guid := by
  unfold get_workflow
  cases api_get attempt guid <;> rfl

lemma wait_for_workflow_loop_eq_aux {ε : Type} (api_get : Nat → String → Except ε Snapshot)
    (fs : List String) (T : Nat) :
    ∀ n cur c, T - c = n →
      wait_for_workflow_loop api_get fs T cur c = pollLoop api_get fs T cur c := by
  intro n
  induction n with
  | zero =>
      intro cur c hc
      rw [wait_for_workflow_loop, pollLoop]
      have : ¬ (cur.state ∉ fs ∧ c < T) := by
        rintro ⟨-, h2⟩; omega
      rw [dif_neg this, dif_neg this]
  | succ n ih =>
      intro cur c hc
      rw [wait_for_workflow_loop, pollLoop]
      by_cases h : cur.state ∉ fs ∧ c < T
      · rw [dif_pos h, dif_pos h, get_workflow_eq]
        cases hf : api_get (c + 1) cur.guid with
        | error e => rfl
        | ok next =>
            simp only
            rw [ih next (c + 1) (by omega)]
      · rw [dif_neg h, dif_neg h]

lemma wait_for_workflow_loop_eq {ε : Type} (api_get : Nat → String → Except ε Snapshot)
    (fs : List String) (T : Nat) (cur : Snapshot) (c : Nat) :
    wait_for_workflow_loop api_get fs T cur c = pollLoop api_get fs T cur c :=
  wait_for_workflow_loop_eq_aux api_get fs T (T - c) cur c rfl

lemma wait_for_workflow_eq {ε : Type} (api_get : Nat → String → Except ε Snapshot)
    (workflow : Snapshot) (es : List String) (T : Nat) :
    wait_for_workflow api_get workflow es T =
      pollWait "Workflow has invalid state: " api_get workflow es T := by
  simp only [wait_for_workflow, pollWait, wait_for_workflow_loop_eq]

lemma get_external_bank_account_eq {ε : Type} (api_get : Nat → String → Except ε Snapshot)
    (attempt : Nat) (guid : String) :
    get_external_bank_account api_get attempt guid = api_get attempt guid := by
  unfold get_external_bank_account
  cases api_get attempt guid <;> rfl

lemma wait_for_external_bank_account_loop_eq_aux {ε : Type} (api_get : Nat → String → Except ε Snapshot)
    (fs : List String) (T : Nat) :
    ∀ n cur c, T - c = n →
      wait_for_external_bank_account_loop api_get fs T cur c = pollLoop api_get fs T cur c := by
  intro n
  induction n with
  | zero =>
      intro cur c hc
      rw [wait_for_external_bank_account_loop, pollLoop]
      have : ¬ (cur.state ∉ fs ∧ c < T) := by
        rintro ⟨-, h2⟩; omega
      rw [dif_neg this, dif_neg this]
  | succ n ih =>
      intro cur c hc
      rw [wait_for_external_bank_account_loop, pollLoop]
      by_cases h : cur.state ∉ fs ∧ c < T
      · rw [dif_pos h, dif_pos h, get_external_bank_account_eq]
        cases hf : api_get (c + 1) cur.guid with
        | error e => rfl
        | ok next =>
            simp only
            rw [ih next (c + 1) (by omega)]
      · rw [dif_neg h, dif_neg h]

lemma wait_for_external_bank_account_loop_eq {ε : Type} (api_get : Nat → String → Except ε Snapshot)
    (fs : List String) (T : Nat) (cur : Snapshot) (c : Nat) :
    wait_for_external_bank_account_loop api_get fs T cur c = pollLoop api_get fs T cur c :=
  wait_for_external_bank_account_loop_eq_aux api_get fs T (T - c) cur c rfl

lemma wait_for_external_bank_account_eq {ε : Type} (api_get : Nat → String → Except ε Snapshot)
    (external_bank_account : Snapshot) (es : List String) (T : Nat) :
    wait_for_external_bank_account api_get external_bank_account es T =
      pollWait "Workflow has invalid state: " api_get external_bank_account es T := by
  simp only [wait_for_external_bank_account, pollWait, wait_for_external_bank_account_loop_eq]

lemma get_counterparty_eq {ε : Type} (api_get : Nat → String → Except ε Snapshot)
    (attempt : Nat) (guid : String) :
    get_counterparty api_get attempt guid = api_get attempt guid := by
  unfold get_counterparty
  cases api_get attempt guid <;> rfl

lemma wait_for_counterparty_loop_eq_aux {ε : Type} (api_get : Nat → String → Except ε Snapshot)
    (fs : List String) (T : Nat) :
    ∀ n cur c, T - c = n →
      wait_for_counterparty_loop api_get fs T cur c = pollLoop api_get fs T cur c := by
  intro n
  induction n with
  | zero =>
      intro cur c hc
      rw [wait_for_counterparty_loop, pollLoop]
      have : ¬ (cur.state ∉ fs ∧ c < T) := by
        rintro ⟨-, h2⟩; omega
      rw [dif_neg this, dif_neg this]
  | succ n ih =>
      intro cur c hc
      rw [wait_for_counterparty_loop, pollLoop]
      by_cases h : cur.state ∉ fs ∧ c < T
      · rw [dif_pos h, dif_pos h, get_counterparty_eq]
        cases hf : api_get (c + 1) cur.guid with
        | error e => rfl
        | ok next =>
            simp only
            rw [ih next (c + 1) (by omega)]
      · rw [dif_neg h, dif_neg h]

lemma wait_for_counterparty_loop_eq {ε : Type} (api_get : Nat → String → Except ε Snapshot)
    (fs : List String) (T : Nat) (cur : Snapshot) (c : Nat) :
    wait_for_counterparty_loop api_get fs T cur c = pollLoop api_get fs T cur c :=
  wait_for_counterparty_loop_eq_aux api_get fs T (T - c) cur c rfl

lemma wait_for_counterparty_eq {ε : Type} (api_get : Nat → String → Except ε Snapshot)
    (counterparty : Snapshot) (es : List String) (T : Nat) :
    wait_for_counterparty api_get counterparty es T =
      pollWait "Counterparty has invalid state: " api_get counterparty es T := by
  simp only [wait_for_counterparty, pollWait, wait_for_counterparty_loop_eq]

lemma sleepFetchEvents_zero : sleepFetchEvents 0 = [] := rfl

lemma sleepFetchEvents_succ (n : Nat) :
    sleepFetchEvents (n + 1) = Ev.sleep :: Ev.fetch :: sleepFetchEvents n := by
  simp [sleepFetchEvents, List.replicate_succ]

lemma sleepFetchEvents_one : sleepFetchEvents 1 = [Ev.sleep, Ev.fetch] := by
  rw [sleepFetchEvents_succ, sleepFetchEvents_zero]

lemma sleepFetchEvents_count_fetch (n : Nat) :
    (sleepFetchEvents n).count Ev.fetch = n := by
  induction n with
  | zero => rfl
  | succ n ih => rw [sleepFetchEvents_succ]; simp [List.count_cons, ih]

lemma sleepFetchEvents_count_sleep (n : Nat) :
    (sleepFetchEvents n).count Ev.sleep = n := by
  induction n with
  | zero => rfl
  | succ n ih => rw [sleepFetchEvents_succ]; simp [List.count_cons, ih]

lemma sleepFetchEvents_mem {e : Ev} :
    ∀ {n : Nat}, e ∈ sleepFetchEvents n → e = Ev.sleep ∨ e = Ev.fetch := by
  intro n
  induction n with
  | zero => intro he; simp [sleepFetchEvents] at he
  | succ n ih =>
      rw [sleepFetchEvents_succ]
      intro he
      simp only [List.mem_cons] at he
      rcases he with rfl | rfl | he
      · exact Or.inl rfl
      · exact Or.inr rfl
      · exact ih he

/-- If the state is already accepted, the loop exits at once: no events, the
current snapshot is kept. -/
lemma pollLoop_fastpath {ε : Type} (api_get : Nat → String → Except ε Snapshot)
    (fs : List String) (T : Nat) (cur : Snapshot) (c : Nat) (hcur : cur.state ∈ fs) :
    pollLoop api_get fs T cur c = ([], LoopEnd.done cur) := by
  rw [pollLoop, dif_neg]
  rintro ⟨h1, -⟩
  exact h1 hcur

/-- Run lemma, success case: if every fetch up to `k` succeeds with the
snapshots `seq`, the states strictly before `k` are not accepted, and the
`k`-th is, then from any non-accepted snapshot at counter `c < k ≤ T` the loop
performs `k - c` sleep/fetch pairs and ends with `seq k`. -/
lemma pollLoop_run_ok {ε : Type} (api_get : Nat → String → Except ε Snapshot)
    (fs : List String) (T : Nat) (seq : Nat → Snapshot) (k : Nat)
    (hok : ∀ j g, 1 ≤ j → j ≤ k → api_get j g = Except.ok (seq j))
    (hmid : ∀ j, 1 ≤ j → j < k → (seq j).state ∉ fs)
    (hacc : (seq k).state ∈ fs)
    (hkT : k ≤ T) :
    ∀ n cur c, k - c = n + 1 → cur.state ∉ fs →
      pollLoop api_get fs T cur c = (sleepFetchEvents (k - c), LoopEnd.done (seq k)) := by
  intro n
  induction n with
  | zero =>
      intro cur c hkc hcur
      have hc1 : c + 1 = k := by omega
      rw [pollLoop, dif_pos ⟨hcur, by omega⟩]
      rw [hok (c + 1) cur.guid (by omega) (by omega)]
      simp only
      rw [pollLoop_fastpath api_get fs T (seq (c + 1)) (c + 1) (hc1 ▸ hacc)]
      rw [show k - c = 1 by omega, sleepFetchEvents_one, hc1]
  | succ n ih =>
      intro cur c hkc hcur
      rw [pollLoop, dif_pos ⟨hcur, by omega⟩]
      rw [hok (c + 1) cur.guid (by omega) (by omega)]
      simp only
      rw [ih (seq (c + 1)) (c + 1) (by omega) (hmid (c + 1) (by omega) (by omega))]
      rw [show k - c = (k - (c + 1)) + 1 by omega, sleepFetchEvents_succ]

/-- Run lemma, accessor-error case: if every fetch strictly before `k`
succeeds with non-accepted states and the `k`-th fetch raises `e`, then from
any non-accepted snapshot at counter `c < k ≤ T` the loop performs `k - c`
sleep/fetch pairs (the last fetch being the raising call) and ends with the
error `e`. -/
lemma pollLoop_run_err {ε : Type} (api_get : Nat → String → Except ε Snapshot)
    (fs : List String) (T : Nat) (seq : Nat → Snapshot) (k : Nat) (e : ε)
    (hok : ∀ j g, 1 ≤ j → j < k → api_get j g = Except.ok (seq j))
    (hmid : ∀ j, 1 ≤ j → j < k → (seq j).state ∉ fs)
    (herr : ∀ g, api_get k g = Except.error e)
    (hkT : k ≤ T) :
    ∀ n cur c, k - c = n + 1 → cur.state ∉ fs →
      pollLoop api_get fs T cur c = (sleepFetchEvents (k - c), LoopEnd.err e) := by
  intro n
  induction n with
  | zero =>
      intro cur c hkc hcur
      have hc1 : c + 1 = k := by omega
      rw [pollLoop, dif_pos ⟨hcur, by omega⟩]
      rw [hc1, herr cur.guid]
      simp only
      rw [show k - c = 1 by omega, sleepFetchEvents_one]
  | succ n ih =>
      intro cur c hkc hcur
      rw [pollLoop, dif_pos ⟨hcur, by omega⟩]
      rw [hok (c + 1) cur.guid (by omega) (by omega)]
      simp only
      rw [ih (seq (c + 1)) (c + 1) (by omega) (hmid (c + 1) (by omega) (by omega))]
      rw [show k - c = (k - (c + 1)) + 1 by omega, sleepFetchEvents_succ]

/-- Run lemma, timeout case: if every fetch up to the budget `T` succeeds but
never with an accepted state, the loop from counter `c` performs `T - c`
sleep/fetch pairs and ends with `seq T` (or the starting snapshot when it
never iterates). -/
lemma pollLoop_run_timeout {ε : Type} (api_get : Nat → String → Except ε Snapshot)
    (fs : List String) (T : Nat) (seq : Nat → Snapshot)
    (hok : ∀ j g, 1 ≤ j → j ≤ T → api_get j g = Except.ok (seq j))
    (hmid : ∀ j, 1 ≤ j → j ≤ T → (seq j).state ∉ fs) :
    ∀ n cur c, T - c = n → cur.state ∉ fs →
      pollLoop api_get fs T cur c =
        (sleepFetchEvents (T - c), LoopEnd.done (if c < T then seq T else cur)) := by
  intro n
  induction n with
  | zero =>
      intro cur c hTc hcur
      rw [pollLoop, dif_neg (by rintro ⟨-, h2⟩; omega)]
      rw [hTc, sleepFetchEvents_zero, if_neg (by omega)]
  | succ n ih =>
      intro cur c hTc hcur
      rw [pollLoop, dif_pos ⟨hcur, by omega⟩]
      rw [hok (c + 1) cur.guid (by omega) (by omega)]
      simp only
      rw [ih (seq (c + 1)) (c + 1) (by omega) (hmid (c + 1) (by omega) (by omega))]
      have hfin : (if c + 1 < T then seq T else seq (c + 1)) = seq T := by
        rcases Nat.lt_or_ge (c + 1) T with h | h
        · rw [if_pos h]
        · rw [if_neg (by omega), show c + 1 = T by omega]
      rw [hfin, show T - c = (T - (c + 1)) + 1 by omega, sleepFetchEvents_succ,
        if_pos (by omega)]

/-- For every accessor behaviour, the loop's event trace is some number
`m ≤ T - c` of sleep/fetch pairs. -/
lemma pollLoop_events_shape {ε : Type} (api_get : Nat → String → Except ε Snapshot)
    (fs : List String) (T : Nat) :
    ∀ n cur c, T - c = n →
      ∃ m, m ≤ T - c ∧ (pollLoop api_get fs T cur c).1 = sleepFetchEvents m := by
  intro n
  induction n with
  | zero =>
      intro cur c hTc
      refine ⟨0, Nat.zero_le _, ?_⟩
      rw [pollLoop, dif_neg (by rintro ⟨-, h2⟩; omega), sleepFetchEvents_zero]
  | succ n ih =>
      intro cur c hTc
      by_cases h : cur.state ∉ fs ∧ c < T
      · rw [pollLoop, dif_pos h]
        cases hf : api_get (c + 1) cur.guid with
        | error e =>
            exact ⟨1, by omega, by rw [sleepFetchEvents_one]⟩
        | ok next =>
            obtain ⟨m, hm, he⟩ := ih next (c + 1) (by omega)
            refine ⟨m + 1, by omega, ?_⟩
            simp only
            rw [he, sleepFetchEvents_succ]
      · rw [pollLoop, dif_neg h]
        exact ⟨0, Nat.zero_le _, by rw [sleepFetchEvents_zero]⟩

/-- If the loop ends normally, the final snapshot is either the starting one
or a value returned by some accessor call: the loop only reads and replaces
its local snapshot with fetched values. -/
lemma pollLoop_done_provenance {ε : Type} (api_get : Nat → String → Except ε Snapshot)
    (fs : List String) (T : Nat) :
    ∀ n cur c s, T - c = n →
      (pollLoop api_get fs T cur c).2 = LoopEnd.done s →
      s = cur ∨ ∃ j g, api_get j g = Except.ok s := by
  intro n
  induction n with
  | zero =>
      intro cur c s hTc hdone
      rw [pollLoop, dif_neg (by rintro ⟨-, h2⟩; omega)] at hdone
      exact Or.inl (LoopEnd.done.inj hdone).symm
  | succ n ih =>
      intro cur c s hTc hdone
      by_cases h : cur.state ∉ fs ∧ c < T
      · rw [pollLoop, dif_pos h] at hdone
        cases hf : api_get (c + 1) cur.guid with
        | error e => rw [hf] at hdone; simp at hdone
        | ok next =>
            rw [hf] at hdone
            simp only at hdone
            rcases ih next (c + 1) s (by omega) hdone with hs | hs
            · exact Or.inr ⟨c + 1, cur.guid, hs ▸ hf⟩
            · exact Or.inr hs
      · rw [pollLoop, dif_neg h] at hdone
        exact Or.inl (LoopEnd.done.inj hdone).symm

lemma pollWait_fastpath {ε : Type} (label : String) (api_get : Nat → String → Except ε Snapshot)
    (cur : Snapshot) (es : List String) (T : Nat) (h : cur.state ∈ es) :
    pollWait label api_get cur es T = ([], PollResult.ok cur) := by
  unfold pollWait
  rw [pollLoop_fastpath api_get es T cur 0 h]
  simp only
  rw [if_neg (not_not_intro h)]

lemma pollWait_run_ok {ε : Type} (label : String) (api_get : Nat → String → Except ε Snapshot)
    (es : List String) (T : Nat) (seq : Nat → Snapshot) (k : Nat) (init : Snapshot)
    (hinit : init.state ∉ es)
    (hok : ∀ j g, 1 ≤ j → j ≤ k → api_get j g = Except.ok (seq j))
    (hmid : ∀ j, 1 ≤ j → j < k → (seq j).state ∉ es)
    (hacc : (seq k).state ∈ es)
    (hk1 : 1 ≤ k) (hkT : k ≤ T) :
    pollWait label api_get init es T = (sleepFetchEvents k, PollResult.ok (seq k)) := by
  unfold pollWait
  rw [pollLoop_run_ok api_get es T seq k hok hmid hacc hkT (k - 1) init 0 (by omega) hinit]
  simp only
  rw [if_neg (not_not_intro hacc), Nat.sub_zero]

lemma pollWait_run_err {ε : Type} (label : String) (api_get : Nat → String → Except ε Snapshot)
    (es : List String) (T : Nat) (seq : Nat → Snapshot) (k : Nat) (e : ε) (init : Snapshot)
    (hinit : init.state ∉ es)
    (hok : ∀ j g, 1 ≤ j → j < k → api_get j g = Except.ok (seq j))
    (hmid : ∀ j, 1 ≤ j → j < k → (seq j).state ∉ es)
    (herr : ∀ g, api_get k g = Except.error e)
    (hk1 : 1 ≤ k) (hkT : k ≤ T) :
    pollWait label api_get init es T = (sleepFetchEvents k, PollResult.accessorErr e) := by
  unfold pollWait
  rw [pollLoop_run_err api_get es T seq k e hok hmid herr hkT (k - 1) init 0 (by omega) hinit]
  simp only
  rw [Nat.sub_zero]

lemma pollWait_run_timeout {ε : Type} (label : String) (api_get : Nat → String → Except ε Snapshot)
    (es : List String) (T : Nat) (seq : Nat → Snapshot) (init : Snapshot)
    (hinit : init.state ∉ es)
    (hok : ∀ j g, 1 ≤ j → j ≤ T → api_get j g = Except.ok (seq j))
    (hmid : ∀ j, 1 ≤ j → j ≤ T → (seq j).state ∉ es) :
    pollWait label api_get init es T =
      (sleepFetchEvents T,
        PollResult.badResult (label ++ (lastObserved seq init T).state)) := by
  unfold pollWait
  rw [pollLoop_run_timeout api_get es T seq hok hmid (T - 0) init 0 rfl hinit]
  simp only [lastObserved]
  have hfin : (if 0 < T then seq T else init).state ∉ es := by
    rcases Nat.eq_zero_or_pos T with h | h
    · rw [h]; simpa using hinit
    · rw [if_pos h]; exact hmid T (by omega) le_rfl
  rw [if_pos hfin, Nat.sub_zero]

lemma pollWait_fst {ε : Type} (label : String) (api_get : Nat → String → Except ε Snapshot)
    (cur : Snapshot) (es : List String) (T : Nat) :
    (pollWait label api_get cur es T).1 = (pollLoop api_get es T cur 0).1 := by
  rcases hp : pollLoop api_get es T cur 0 with ⟨evs, le⟩
  unfold pollWait
  rw [hp]
  cases le with
  | err e => rfl
  | done c =>
      simp only
      by_cases hc : c.state ∉ es
      · rw [if_pos hc]
      · rw [if_neg hc]

lemma pollWait_events_shape {ε : Type} (label : String) (api_get : Nat → String → Except ε Snapshot)
    (cur : Snapshot) (es : List String) (T : Nat) :
    ∃ m, m ≤ T ∧ (pollWait label api_get cur es T).1 = sleepFetchEvents m := by
  obtain ⟨m, hm, he⟩ := pollLoop_events_shape api_get es T (T - 0) cur 0 rfl
  exact ⟨m, by omega, by rw [pollWait_fst, he]⟩

lemma pollWait_ok_provenance {ε : Type} (label : String) (api_get : Nat → String → Except ε Snapshot)
    (cur : Snapshot) (es : List String) (T : Nat) (s : Snapshot)
    (h : (pollWait label api_get cur es T).2 = PollResult.ok s) :
    s = cur ∨ ∃ j g, api_get j g = Except.ok s := by
  rcases hp : pollLoop api_get es T cur 0 with ⟨evs, le⟩
  unfold pollWait at h
  rw [hp] at h
  cases le with
  | err e => simp at h
  | done c =>
      simp only at h
      by_cases hc : c.state ∉ es
      · rw [if_pos hc] at h; simp at h
      · rw [if_neg hc] at h
        simp only at h
        have hcs : c = s := by
          have := h
          simpa using this
        have hdone : (pollLoop api_get es T cur 0).2 = LoopEnd.done c := by rw [hp]
        rcases pollLoop_done_provenance api_get es T (T - 0) cur 0 c rfl hdone with h1 | h1
        · exact Or.inl (hcs ▸ h1)
        · exact Or.inr (hcs ▸ h1)

lemma pollWait_empty_never_ok {ε : Type} (label : String) (api_get : Nat → String → Except ε Snapshot)
    (cur : Snapshot) (T : Nat) (s : Snapshot) :
    (pollWait label api_get cur [] T).2 ≠ PollResult.ok s := by
  rcases hp : pollLoop api_get [] T cur 0 with ⟨evs, le⟩
  unfold pollWait
  rw [hp]
  cases le with
  | err e => simp
  | done c =>
      simp only
      rw [if_pos (by simp)]
      simp

lemma ResourceStatePollerLoop_eq_aux {ε : Type} (seqf : Nat → Except ε Snapshot)
    (fs : List String) (T : Nat) (ident : String) :
    ∀ n cur c, T - c = n →
      ResourceStatePollerLoop (fun j _ => seqf j) fs T ident cur c =
        pollLoop (fun j _ => seqf j) fs T cur c := by
  intro n
  induction n with
  | zero =>
      intro cur c hc
      rw [ResourceStatePollerLoop, pollLoop]
      have : ¬ (cur.state ∉ fs ∧ c < T) := by
        rintro ⟨-, h2⟩; omega
      rw [dif_neg this, dif_neg this]
  | succ n ih =>
      intro cur c hc
      rw [ResourceStatePollerLoop, pollLoop]
      by_cases h : cur.state ∉ fs ∧ c < T
      · rw [dif_pos h, dif_pos h]
        cases hf : seqf (c + 1) with
        | error e => rfl
        | ok next =>
            simp only
            rw [ih next (c + 1) (by omega)]
      · rw [dif_neg h, dif_neg h]

/-- Any instance of the shared source shape `pollWait`, run on a
guid-independent accessor state sequence, produces the same event trace as
the specification's generic poller and agrees with it on the outcome. -/
lemma pollWait_agrees {ε : Type} (label : String) (seqf : Nat → Except ε Snapshot)
    (init : Snapshot) (es : List String) (T : Nat) :
    (pollWait label (fun j _ => seqf j) init es T).1 =
        (ResourceStatePoller (fun j _ => seqf j) es T init).1 ∧
      agrees (pollWait label (fun j _ => seqf j) init es T).2
        (ResourceStatePoller (fun j _ => seqf j) es T init).2 := by
  by_cases hinit : init.state ∈ es
  · rw [pollWait_fastpath label _ init es T hinit]
    unfold ResourceStatePoller
    rw [if_pos hinit]
    exact ⟨rfl, rfl⟩
  · unfold ResourceStatePoller
    rw [if_neg hinit, ResourceStatePollerLoop_eq_aux seqf es T init.guid (T - 0) init 0 rfl]
    rcases hp : pollLoop (fun j _ => seqf j) es T init 0 with ⟨evs, le⟩
    unfold pollWait
    rw [hp]
    cases le with
    | err e => exact ⟨rfl, rfl⟩
    | done c =>
        simp only
        by_cases hc : c.state ∈ es
        · rw [if_neg (not_not_intro hc), if_pos hc]
          exact ⟨rfl, rfl⟩
        · rw [if_pos hc, if_neg hc]
          exact ⟨rfl, trivial⟩

lemma listHasPre_append {α : Type} [DecidableEq α] (pat rest : List α) :
    listHasPre pat (pat ++ rest) = true := by
  induction pat with
  | nil => rfl
  | cons a pat ih =>
      show (decide (a = a ∧ listHasPre pat (pat ++ rest) = true)) = true
      simp [ih]

lemma listHasSub_append {α : Type} [DecidableEq α] (pat post : List α) :
    ∀ pre : List α, listHasSub pat (pre ++ (pat ++ post)) = true := by
  intro pre
  induction pre with
  | nil =>
      rw [List.nil_append]
      cases hl : pat ++ post with
      | nil =>
          have hpat : pat = [] := by
            cases pat with
            | nil => rfl
            | cons a l => simp at hl
          rw [hpat]
          rfl
      | cons b l =>
          simp only [listHasSub]
          rw [← hl, listHasPre_append, Bool.true_or]
  | cons a pre ih =>
      rw [List.cons_append]
      simp only [listHasSub]
      rw [ih, Bool.or_true]

/-- If `s` decomposes as `pre ++ pat ++ post` then `pat` occurs as a
substring of `s` at the level of character lists. -/
lemma listHasSub_of_eq_append (pat s pre post : String) (h : s = pre ++ pat ++ post) :
    listHasSub pat.data s.data = true := by
  have hdata : s.data = pre.data ++ (pat.data ++ post.data) := by
    rw [h]
    simp [String.data_append, List.append_assoc]
  rw [hdata]
  exact listHasSub_append pat.data post.data pre.data

/-- C1: For a wait operation (representative: `wait_for_customer`; all eleven
share the loop, see C8), given an initial snapshot whose state is not in the
acceptance set and an accessor whose `k`-th fetch (1 ≤ k ≤ the timeout
budget) is the first to return a state in the acceptance set, the poller
performs exactly `k` fetch calls (and `k` sleeps) and returns normally with
the resource snapshot obtained from that `k`-th fetch. -/
theorem C1_eventual_success {ε : Type} (api_get : Nat → String → Except ε Snapshot)
    (seq : Nat → Snapshot) (customer : Snapshot) (expected_states : List String)
    (T k : Nat)
    (hinit : customer.state ∉ expected_states)
    (hfetch : ∀ j g, api_get j g = Except.ok (seq j))
    (hmid : ∀ j, 1 ≤ j → j < k → (seq j).state ∉ expected_states)
    (hacc : (seq k).state ∈ expected_states)
    (hk1 : 1 ≤ k) (hkT : k ≤ T) :
    ((wait_for_customer api_get customer expected_states T).1.count Ev.fetch = k ∧
        (wait_for_customer api_get customer expected_states T).1.count Ev.sleep = k) ∧
      (wait_for_customer api_get customer expected_states T).2 = PollResult.ok (seq k) := by
  rw [wait_for_customer_eq, pollWait_run_ok "Customer has invalid state: " api_get
    expected_states T seq k customer hinit (fun j g _ _ => hfetch j g) hmid hacc hk1 hkT]
  exact ⟨⟨sleepFetchEvents_count_fetch k, sleepFetchEvents_count_sleep k⟩, rfl⟩

/-- Witness for C1 at the spec's Scenario A: acceptance set `["created"]`,
initial state `"storing"`, accessor returning `"storing"`, `"storing"`,
`"created"` on successive calls, budget 10: exactly 3 fetches and 3 sleeps,
normal return with the third fetched snapshot. -/
theorem C1_eventual_success_witness :
    ((Snapshot.mk "cust-1" "storing").state ∉ ["created"] ∧
      (∀ j, 1 ≤ j → j < 3 →
        (Snapshot.mk "cust-1" (if j < 3 then "storing" else "created")).state ∉ ["created"]) ∧
      (Snapshot.mk "cust-1" (if 3 < 3 then "storing" else "created")).state ∈ ["created"]) ∧
    ((wait_for_customer (ε := Unit)
          (fun j _ => Except.ok (Snapshot.mk "cust-1" (if j < 3 then "storing" else "created")))
          (Snapshot.mk "cust-1" "storing") ["created"] 10).1.count Ev.fetch = 3 ∧
        (wait_for_customer (ε := Unit)
          (fun j _ => Except.ok (Snapshot.mk "cust-1" (if j < 3 then "storing" else "created")))
          (Snapshot.mk "cust-1" "storing") ["created"] 10).1.count Ev.sleep = 3) ∧
      (wait_for_customer (ε := Unit)
          (fun j _ => Except.ok (Snapshot.mk "cust-1" (if j < 3 then "storing" else "created")))
          (Snapshot.mk "cust-1" "storing") ["created"] 10).2 =
        PollResult.ok (Snapshot.mk "cust-1" (if 3 < 3 then "storing" else "created")) :=
  ⟨⟨by decide, by intro j h1 h2; interval_cases j <;> decide, by decide⟩,
    C1_eventual_success (ε := Unit)
      (fun j _ => Except.ok (Snapshot.mk "cust-1" (if j < 3 then "storing" else "created")))
      (fun j => Snapshot.mk "cust-1" (if j < 3 then "storing" else "created"))
      (Snapshot.mk "cust-1" "storing") ["created"] 10 3
      (by decide) (fun j g => rfl)
      (by intro j h1 h2; interval_cases j <;> decide) (by decide) (by decide) (by decide)⟩

/-- C2: For a wait operation (representative: `wait_for_customer`) whose
accessor never returns a state in the acceptance set (and whose initial state
is also outside it), the poller performs exactly `Config.TIMEOUT` fetch calls
and sleeps — not more, not fewer — for every environment value of the
timeout, and then raises `BadResultError` instead of returning normally. -/
theorem C2_bounded_attempts {ε : Type} (api_get : Nat → String → Except ε Snapshot)
    (seq : Nat → Snapshot) (customer : Snapshot) (expected_states : List String)
    (envTIMEOUT : Option Nat)
    (hinit : customer.state ∉ expected_states)
    (hfetch : ∀ j g, api_get j g = Except.ok (seq j))
    (hnever : ∀ j, (seq j).state ∉ expected_states) :
    ((wait_for_customer api_get customer expected_states (Config.TIMEOUT envTIMEOUT)).1.count
          Ev.fetch = Config.TIMEOUT envTIMEOUT ∧
        (wait_for_customer api_get customer expected_states (Config.TIMEOUT envTIMEOUT)).1.count
          Ev.sleep = Config.TIMEOUT envTIMEOUT) ∧
      (wait_for_customer api_get customer expected_states (Config.TIMEOUT envTIMEOUT)).2 =
        PollResult.badResult ("Customer has invalid state: " ++
          (lastObserved seq customer (Config.TIMEOUT envTIMEOUT)).state) := by
  rw [wait_for_customer_eq, pollWait_run_timeout "Customer has invalid state: " api_get
    expected_states (Config.TIMEOUT envTIMEOUT) seq customer hinit
    (fun j g _ _ => hfetch j g) (fun j _ _ => hnever j)]
  exact ⟨⟨sleepFetchEvents_count_fetch _, sleepFetchEvents_count_sleep _⟩, rfl⟩

/-- Witness for C2 at the spec's Scenario B: acceptance set `["verified"]`,
initial state `"unverified"`, accessor always returning `"unverified"`,
environment timeout 3: exactly 3 fetches and 3 sleeps, then `BadResultError`
referencing the final state `"unverified"`. -/
theorem C2_bounded_attempts_witness :
    ((Snapshot.mk "cust-2" "unverified").state ∉ ["verified"] ∧
      (∀ j : Nat, (Snapshot.mk "cust-2" "unverified").state ∉ ["verified"])) ∧
    ((wait_for_customer (ε := Unit) (fun _ _ => Except.ok (Snapshot.mk "cust-2" "unverified"))
          (Snapshot.mk "cust-2" "unverified") ["verified"] (Config.TIMEOUT (some 3))).1.count
          Ev.fetch = Config.TIMEOUT (some 3) ∧
        (wait_for_customer (ε := Unit) (fun _ _ => Except.ok (Snapshot.mk "cust-2" "unverified"))
          (Snapshot.mk "cust-2" "unverified") ["verified"] (Config.TIMEOUT (some 3))).1.count
          Ev.sleep = Config.TIMEOUT (some 3)) ∧
      (wait_for_customer (ε := Unit) (fun _ _ => Except.ok (Snapshot.mk "cust-2" "unverified"))
          (Snapshot.mk "cust-2" "unverified") ["verified"] (Config.TIMEOUT (some 3))).2 =
        PollResult.badResult ("Customer has invalid state: " ++
          (lastObserved (fun _ => Snapshot.mk "cust-2" "unverified")
            (Snapshot.mk "cust-2" "unverified") (Config.TIMEOUT (some 3))).state) :=
  ⟨⟨by decide, fun _ => by decide⟩,
    C2_bounded_attempts (ε := Unit) (fun _ _ => Except.ok (Snapshot.mk "cust-2" "unverified"))
      (fun _ => Snapshot.mk "cust-2" "unverified") (Snapshot.mk "cust-2" "unverified")
      ["verified"] (some 3) (by decide) (fun _ _ => rfl)
      (fun _ => by show "unverified" ∉ ["verified"]; decide)⟩

/-- C3: For a wait operation (representative: `wait_for_trade`, the cited
symbol) whose initial snapshot's state is already in the acceptance set, the
poller returns immediately with an empty event trace — zero fetch calls and
zero sleeps — regardless of the accessor's behaviour and of the timeout
budget. -/
theorem C3_fast_path {ε : Type} (api_get : Nat → String → Except ε Snapshot)
    (trade : Snapshot) (expected_states : List String) (T : Nat)
    (hinit : trade.state ∈ expected_states) :
    wait_for_trade api_get trade expected_states T = ([], PollResult.ok trade) := by
  rw [wait_for_trade_eq, pollWait_fastpath "Trade has invalid state: " api_get trade
    expected_states T hinit]

/-- Witness for C3 at the spec's Scenario C: acceptance set
`["completed", "failed"]`, initial state already `"completed"`, an accessor
that always raises (showing it is never consulted), budget 30: immediate
normal return with no events. -/
theorem C3_fast_path_witness :
    (Snapshot.mk "trade-1" "completed").state ∈ ["completed", "failed"] ∧
      wait_for_trade (ε := String) (fun _ _ => Except.error "must never be called")
          (Snapshot.mk "trade-1" "completed") ["completed", "failed"] 30 =
        ([], PollResult.ok (Snapshot.mk "trade-1" "completed")) :=
  ⟨by decide,
    C3_fast_path (ε := String) (fun _ _ => Except.error "must never be called")
      (Snapshot.mk "trade-1" "completed") ["completed", "failed"] 30 (by decide)⟩

/-- C4, counterexample: the claim says a timed-out wait raises an error that
carries the resource type, the resource's identifier, and the final state.
At a concrete run of `wait_for_customer` (guid `"cust-123"`, acceptance set
`["verified"]`, state stuck at `"unverified"`, budget 3) the raised
`BadResultError` message is exactly `"Customer has invalid state: unverified"`,
which does not contain the identifier `"cust-123"` as a substring in any
decomposition; moreover a timed-out `wait_for_external_bank_account` (stuck at
`"pending"`, budget 2) raises `"Workflow has invalid state: pending"`, naming
the wrong resource type. -/
theorem C4_error_content_counterexample :
    (wait_for_customer (ε := Unit) (fun _ _ => Except.ok (Snapshot.mk "cust-123" "unverified"))
        (Snapshot.mk "cust-123" "unverified") ["verified"] 3).2 =
      PollResult.badResult "Customer has invalid state: unverified" ∧
    (¬ ∃ pre post : String,
      "Customer has invalid state: unverified" = pre ++ "cust-123" ++ post) ∧
    (wait_for_external_bank_account (ε := Unit)
        (fun _ _ => Except.ok (Snapshot.mk "eba-77" "pending"))
        (Snapshot.mk "eba-77" "pending") ["completed"] 2).2 =
      PollResult.badResult "Workflow has invalid state: pending" := by
  refine ⟨?_, ?_, ?_⟩
  · rw [wait_for_customer_eq, pollWait_run_timeout "Customer has invalid state: "
      (fun _ _ => Except.ok (Snapshot.mk "cust-123" "unverified")) ["verified"] 3
      (fun _ => Snapshot.mk "cust-123" "unverified") (Snapshot.mk "cust-123" "unverified")
      (by decide) (fun _ _ _ _ => rfl)
      (fun _ _ _ => by show "unverified" ∉ ["verified"]; decide)]
    decide
  · rintro ⟨pre, post, h⟩
    have hsub := listHasSub_of_eq_append "cust-123"
      "Customer has invalid state: unverified" pre post h
    exact absurd hsub (by decide)
  · rw [wait_for_external_bank_account_eq, pollWait_run_timeout "Workflow has invalid state: "
      (fun _ _ => Except.ok (Snapshot.mk "eba-77" "pending")) ["completed"] 2
      (fun _ => Snapshot.mk "eba-77" "pending") (Snapshot.mk "eba-77" "pending")
      (by decide) (fun _ _ _ _ => rfl)
      (fun _ _ _ => by show "pending" ∉ ["completed"]; decide)]
    decide

/-- C4, amended: whenever a wait operation times out, the `BadResultError` it
raises carries a fixed resource-type label and the final observed state, but
NOT the resource's identifier; and `wait_for_external_bank_account` uses the
label `"Workflow"` (a copy-paste from `wait_for_workflow`) instead of naming
external bank accounts.  Stated for the two cited functions on any run whose
fetches all succeed but never reach an accepted state. -/
theorem C4_amended_error_content {ε : Type} (api_get : Nat → String → Except ε Snapshot)
    (seq : Nat → Snapshot) (init : Snapshot) (es : List String) (T : Nat)
    (hinit : init.state ∉ es)
    (hfetch : ∀ j g, api_get j g = Except.ok (seq j))
    (hnever : ∀ j, (seq j).state ∉ es) :
    (wait_for_customer api_get init es T).2 =
        PollResult.badResult ("Customer has invalid state: " ++ (lastObserved seq init T).state) ∧
      (wait_for_external_bank_account api_get init es T).2 =
        PollResult.badResult ("Workflow has invalid state: " ++ (lastObserved seq init T).state) := by
  constructor
  · rw [wait_for_customer_eq, pollWait_run_timeout "Customer has invalid state: " api_get
      es T seq init hinit (fun j g _ _ => hfetch j g) (fun j _ _ => hnever j)]
  · rw [wait_for_external_bank_account_eq, pollWait_run_timeout "Workflow has invalid state: "
      api_get es T seq init hinit (fun j g _ _ => hfetch j g) (fun j _ _ => hnever j)]

/-- Witness for the amended C4, at a concrete stuck run with budget 4. -/
theorem C4_amended_error_content_witness :
    ((Snapshot.mk "cust-9" "storing").state ∉ ["created"] ∧
      (∀ j : Nat, (Snapshot.mk "cust-9" "storing").state ∉ ["created"])) ∧
    (wait_for_customer (ε := Unit) (fun _ _ => Except.ok (Snapshot.mk "cust-9" "storing"))
        (Snapshot.mk "cust-9" "storing") ["created"] 4).2 =
      PollResult.badResult ("Customer has invalid state: " ++
        (lastObserved (fun _ => Snapshot.mk "cust-9" "storing")
          (Snapshot.mk "cust-9" "storing") 4).state) ∧
    (wait_for_external_bank_account (ε := Unit)
        (fun _ _ => Except.ok (Snapshot.mk "cust-9" "storing"))
        (Snapshot.mk "cust-9" "storing") ["created"] 4).2 =
      PollResult.badResult ("Workflow has invalid state: " ++
        (lastObserved (fun _ => Snapshot.mk "cust-9" "storing")
          (Snapshot.mk "cust-9" "storing") 4).state) :=
  ⟨⟨by decide, fun _ => by decide⟩,
    (C4_amended_error_content (ε := Unit)
        (fun _ _ => Except.ok (Snapshot.mk "cust-9" "storing"))
        (fun _ => Snapshot.mk "cust-9" "storing") (Snapshot.mk "cust-9" "storing")
        ["created"] 4 (by decide) (fun _ _ => rfl)
        (fun _ => by show "storing" ∉ ["created"]; decide)).1,
    (C4_amended_error_content (ε := Unit)
        (fun _ _ => Except.ok (Snapshot.mk "cust-9" "storing"))
        (fun _ => Snapshot.mk "cust-9" "storing") (Snapshot.mk "cust-9" "storing")
        ["created"] 4 (by decide) (fun _ _ => rfl)
        (fun _ => by show "storing" ∉ ["created"]; decide)).2⟩

/-- C5: For a wait operation (representative: `wait_for_customer`, whose
accessor `get_customer` re-raises the SDK exception unchanged), if the
accessor raises on the `k`-th fetch attempt (every earlier fetch returning a
non-accepted state), the poller ends with that very error immediately: the
trace is exactly `k` sleep/fetch pairs (the `k`-th fetch being the raising
call, with nothing after it) and the outcome is the same error `e`, not a
`BadResultError`. -/
theorem C5_error_propagation {ε : Type} (api_get : Nat → String → Except ε Snapshot)
    (seq : Nat → Snapshot) (customer : Snapshot) (expected_states : List String)
    (T k : Nat) (e : ε)
    (hinit : customer.state ∉ expected_states)
    (hok : ∀ j g, 1 ≤ j → j < k → api_get j g = Except.ok (seq j))
    (hmid : ∀ j, 1 ≤ j → j < k → (seq j).state ∉ expected_states)
    (herr : ∀ g, api_get k g = Except.error e)
    (hk1 : 1 ≤ k) (hkT : k ≤ T) :
    wait_for_customer api_get customer expected_states T =
      (sleepFetchEvents k, PollResult.accessorErr e) := by
  rw [wait_for_customer_eq, pollWait_run_err "Customer has invalid state: " api_get
    expected_states T seq k e customer hinit hok hmid herr hk1 hkT]

/-- Witness for C5: the accessor returns `"pending"` on the first fetch and
raises `"network down"` on the second; budget 5.  The wait ends after exactly
2 sleeps and 2 fetches with the propagated error. -/
theorem C5_error_propagation_witness :
    ((Snapshot.mk "c5" "pending").state ∉ ["completed"] ∧
      (∀ j, 1 ≤ j → j < 2 →
        (Snapshot.mk "c5" "pending").state ∉ ["completed"])) ∧
    wait_for_customer (ε := String)
        (fun j _ => if j < 2 then Except.ok (Snapshot.mk "c5" "pending")
          else Except.error "network down")
        (Snapshot.mk "c5" "pending") ["completed"] 5 =
      (sleepFetchEvents 2, PollResult.accessorErr "network down") :=
  ⟨⟨by decide, by intro j h1 h2; decide⟩,
    C5_error_propagation (ε := String)
      (fun j _ => if j < 2 then Except.ok (Snapshot.mk "c5" "pending")
        else Except.error "network down")
      (fun _ => Snapshot.mk "c5" "pending") (Snapshot.mk "c5" "pending") ["completed"] 5 2
      "network down" (by decide)
      (by intro j g h1 h2; interval_cases j; rfl)
      (by intro j h1 h2; show "pending" ∉ ["completed"]; decide)
      (fun g => rfl) (by decide) (by decide)⟩

/-- C6: For a wait operation (representative: `wait_for_transfer`) and every
accessor behaviour — including never reaching an accepted state or raising —
the poller makes at most `T` fetch calls beyond the initial snapshot (and at
most `T` sleeps).  Termination of the wait loop is witnessed by the very fact
that the embedded function is total: the attempt counter strictly increases
toward the budget on each iteration (the recursion's decreasing measure). -/
theorem C6_bounded_fetch_calls {ε : Type} (api_get : Nat → String → Except ε Snapshot)
    (transfer : Snapshot) (expected_states : List String) (T : Nat) :
    (wait_for_transfer api_get transfer expected_states T).1.count Ev.fetch ≤ T ∧
      (wait_for_transfer api_get transfer expected_states T).1.count Ev.sleep ≤ T := by
  rw [wait_for_transfer_eq]
  obtain ⟨m, hm, he⟩ :=
    pollWait_events_shape "Transfer has invalid state: " api_get transfer expected_states T
  rw [he, sleepFetchEvents_count_fetch, sleepFetchEvents_count_sleep]
  exact ⟨hm, hm⟩

/-- C7: In every execution of a wait operation (representative:
`wait_for_customer`), the event trace is some number of `[sleep, fetch]`
pairs in that order: every fetch is immediately preceded by one full
one-unit sleep (no busy-polling), and the number of sleeps equals the number
of fetches. -/
theorem C7_sleep_precedes_fetch {ε : Type} (api_get : Nat → String → Except ε Snapshot)
    (customer : Snapshot) (expected_states : List String) (T : Nat) :
    (∃ m, (wait_for_customer api_get customer expected_states T).1 = sleepFetchEvents m) ∧
      (wait_for_customer api_get customer expected_states T).1.count Ev.sleep =
        (wait_for_customer api_get customer expected_states T).1.count Ev.fetch := by
  rw [wait_for_customer_eq]
  obtain ⟨m, hm, he⟩ :=
    pollWait_events_shape "Customer has invalid state: " api_get customer expected_states T
  rw [he, sleepFetchEvents_count_fetch, sleepFetchEvents_count_sleep]
  exact ⟨⟨m, rfl⟩, rfl⟩

/-- C8: Every per-resource wait function computes the same function as the
specification's single generic `ResourceStatePoller`, parameterized only by
the accessor and the acceptance set: on the same initial snapshot, acceptance
set, budget and accessor state sequence, each of the eleven produces exactly
the generic poller's event trace (same number of fetches and sleeps) and
agrees with its outcome — same normal-return snapshot, `BadResultError`
exactly when the generic poller raises `TimeoutExceeded`, and the same
propagated accessor error. -/
theorem C8_refines_generic_poller {ε : Type} (seqf : Nat → Except ε Snapshot)
    (init : Snapshot) (es : List String) (T : Nat) :
      ((wait_for_customer (fun j _ => seqf j) init es T).1 =
          (ResourceStatePoller (fun j _ => seqf j) es T init).1 ∧
        agrees (wait_for_customer (fun j _ => seqf j) init es T).2
          (ResourceStatePoller (fun j _ => seqf j) es T init).2) ∧
      ((wait_for_account (fun j _ => seqf j) init es T).1 =
          (ResourceStatePoller (fun j _ => seqf j) es T init).1 ∧
        agrees (wait_for_account (fun j _ => seqf j) init es T).2
          (ResourceStatePoller (fun j _ => seqf j) es T init).2) ∧
      ((wait_for_deposit_address (fun j _ => seqf j) init es T).1 =
          (ResourceStatePoller (fun j _ => seqf j) es T init).1 ∧
        agrees (wait_for_deposit_address (fun j _ => seqf j) init es T).2
          (ResourceStatePoller (fun j _ => seqf j) es T init).2) ∧
      ((wait_for_deposit_bank_account (fun j _ => seqf j) init es T).1 =
          (ResourceStatePoller (fun j _ => seqf j) es T init).1 ∧
        agrees (wait_for_deposit_bank_account (fun j _ => seqf j) init es T).2
          (ResourceStatePoller (fun j _ => seqf j) es T init).2) ∧
      ((wait_for_identity_verification (fun j _ => seqf j) init es T).1 =
          (ResourceStatePoller (fun j _ => seqf j) es T init).1 ∧
        agrees (wait_for_identity_verification (fun j _ => seqf j) init es T).2
          (ResourceStatePoller (fun j _ => seqf j) es T init).2) ∧
      ((wait_for_transfer (fun j _ => seqf j) init es T).1 =
          (ResourceStatePoller (fun j _ => seqf j) es T init).1 ∧
        agrees (wait_for_transfer (fun j _ => seqf j) init es T).2
          (ResourceStatePoller (fun j _ => seqf j) es T init).2) ∧
      ((wait_for_trade (fun j _ => seqf j) init es T).1 =
          (ResourceStatePoller (fun j _ => seqf j) es T init).1 ∧
        agrees (wait_for_trade (fun j _ => seqf j) init es T).2
          (ResourceStatePoller (fun j _ => seqf j) es T init).2) ∧
      ((wait_for_external_wallet (fun j _ => seqf j) init es T).1 =
          (ResourceStatePoller (fun j _ => seqf j) es T init).1 ∧
        agrees (wait_for_external_wallet (fun j _ => seqf j) init es T).2
          (ResourceStatePoller (fun j _ => seqf j) es T init).2) ∧
      ((wait_for_workflow (fun j _ => seqf j) init es T).1 =
          (ResourceStatePoller (fun j _ => seqf j) es T init).1 ∧
        agrees (wait_for_workflow (fun j _ => seqf j) init es T).2
          (ResourceStatePoller (fun j _ => seqf j) es T init).2) ∧
      ((wait_for_external_bank_account (fun j _ => seqf j) init es T).1 =
          (ResourceStatePoller (fun j _ => seqf j) es T init).1 ∧
        agrees (wait_for_external_bank_account (fun j _ => seqf j) init es T).2
          (ResourceStatePoller (fun j _ => seqf j) es T init).2) ∧
      ((wait_for_counterparty (fun j _ => seqf j) init es T).1 =
          (ResourceStatePoller (fun j _ => seqf j) es T init).1 ∧
        agrees (wait_for_counterparty (fun j _ => seqf j) init es T).2
          (ResourceStatePoller (fun j _ => seqf j) es T init).2) := by
  refine ⟨?_, ?_, ?_, ?_, ?_, ?_, ?_, ?_, ?_, ?_, ?_⟩
  · rw [wait_for_customer_eq]
    exact pollWait_agrees _ seqf init es T
  · rw [wait_for_account_eq]
    exact pollWait_agrees _ seqf init es T
  · rw [wait_for_deposit_address_eq]
    exact pollWait_agrees _ seqf init es T
  · rw [wait_for_deposit_bank_account_eq]
    exact pollWait_agrees _ seqf init es T
  · rw [wait_for_identity_verification_eq]
    exact pollWait_agrees _ seqf init es T
  · rw [wait_for_transfer_eq]
    exact pollWait_agrees _ seqf init es T
  · rw [wait_for_trade_eq]
    exact pollWait_agrees _ seqf init es T
  · rw [wait_for_external_wallet_eq]
    exact pollWait_agrees _ seqf init es T
  · rw [wait_for_workflow_eq]
    exact pollWait_agrees _ seqf init es T
  · rw [wait_for_external_bank_account_eq]
    exact pollWait_agrees _ seqf init es T
  · rw [wait_for_counterparty_eq]
    exact pollWait_agrees _ seqf init es T

/-- C9: A wait operation (representative: `wait_for_trade`) performs no
mutating or write effect: every event in its trace is a sleep or a read
fetch (never `Ev.mutate`), and any snapshot it ends with after a normal
return is either the caller's original snapshot or a value obtained from the
read accessor — the poller only rebinds its local copy to fetched values,
and snapshots themselves are immutable values. -/
theorem C9_non_mutation {ε : Type} (api_get : Nat → String → Except ε Snapshot)
    (trade : Snapshot) (expected_states : List String) (T : Nat) :
    (∀ e ∈ (wait_for_trade api_get trade expected_states T).1,
        e = Ev.sleep ∨ e = Ev.fetch) ∧
      (∀ s, (wait_for_trade api_get trade expected_states T).2 = PollResult.ok s →
        s = trade ∨ ∃ j g, api_get j g = Except.ok s) := by
  constructor
  · rw [wait_for_trade_eq]
    obtain ⟨m, hm, he⟩ :=
      pollWait_events_shape "Trade has invalid state: " api_get trade expected_states T
    rw [he]
    exact fun e hme => sleepFetchEvents_mem hme
  · intro s hs
    rw [wait_for_trade_eq] at hs
    exact pollWait_ok_provenance "Trade has invalid state: " api_get trade expected_states T s hs

/-- Witness for C9 on a concrete one-fetch run: the sleep event in the trace
is classified as a non-mutating event, and the normally returned snapshot is
traced back to an accessor result. -/
theorem C9_non_mutation_witness :
    (Ev.sleep ∈ (wait_for_trade (ε := Unit) (fun _ _ => Except.ok (Snapshot.mk "t1" "completed"))
          (Snapshot.mk "t1" "pending") ["completed"] 3).1 ∧
        (Ev.sleep = Ev.sleep ∨ Ev.sleep = Ev.fetch)) ∧
      ((wait_for_trade (ε := Unit) (fun _ _ => Except.ok (Snapshot.mk "t1" "completed"))
          (Snapshot.mk "t1" "pending") ["completed"] 3).2 =
            PollResult.ok (Snapshot.mk "t1" "completed") ∧
        (Snapshot.mk "t1" "completed" = Snapshot.mk "t1" "pending" ∨
          ∃ j g, (fun (_ : Nat) (_ : String) => Except.ok (ε := Unit)
            (Snapshot.mk "t1" "completed")) j g = Except.ok (Snapshot.mk "t1" "completed"))) := by
  have hrun : wait_for_trade (ε := Unit) (fun _ _ => Except.ok (Snapshot.mk "t1" "completed"))
      (Snapshot.mk "t1" "pending") ["completed"] 3 =
      (sleepFetchEvents 1, PollResult.ok (Snapshot.mk "t1" "completed")) := by
    rw [wait_for_trade_eq, pollWait_run_ok "Trade has invalid state: "
      (fun _ _ => Except.ok (Snapshot.mk "t1" "completed")) ["completed"] 3
      (fun _ => Snapshot.mk "t1" "completed") 1 (Snapshot.mk "t1" "pending")
      (by decide) (fun _ _ _ _ => rfl) (by intro j h1 h2; omega)
      (by decide) (by decide) (by decide)]
  have hmem : Ev.sleep ∈ (wait_for_trade (ε := Unit)
      (fun _ _ => Except.ok (Snapshot.mk "t1" "completed"))
      (Snapshot.mk "t1" "pending") ["completed"] 3).1 := by
    rw [hrun]; decide
  have hok2 : (wait_for_trade (ε := Unit)
      (fun _ _ => Except.ok (Snapshot.mk "t1" "completed"))
      (Snapshot.mk "t1" "pending") ["completed"] 3).2 =
      PollResult.ok (Snapshot.mk "t1" "completed") := by
    rw [hrun]
  exact ⟨⟨hmem, (C9_non_mutation (ε := Unit)
        (fun _ _ => Except.ok (Snapshot.mk "t1" "completed"))
        (Snapshot.mk "t1" "pending") ["completed"] 3).1 Ev.sleep hmem⟩,
    ⟨hok2, (C9_non_mutation (ε := Unit)
        (fun _ _ => Except.ok (Snapshot.mk "t1" "completed"))
        (Snapshot.mk "t1" "pending") ["completed"] 3).2 _ hok2⟩⟩

/-- C10, counterexample: the claim quantifies over EVERY accessor behaviour,
but with an accessor that raises on its first fetch, `wait_for_customer`
with empty acceptance set and the default `Config.TIMEOUT` (30) performs
exactly 1 fetch — not 30 — and propagates the accessor's error instead of
raising `BadResultError`. -/
theorem C10_empty_set_counterexample :
    Config.TIMEOUT none = 30 ∧
    (wait_for_customer (ε := String) (fun _ _ => Except.error "network down")
        (Snapshot.mk "c0" "created") [] (Config.TIMEOUT none)).2 =
      PollResult.accessorErr "network down" ∧
    (wait_for_customer (ε := String) (fun _ _ => Except.error "network down")
        (Snapshot.mk "c0" "created") [] (Config.TIMEOUT none)).1.count Ev.fetch = 1 := by
  have hrun : wait_for_customer (ε := String) (fun _ _ => Except.error "network down")
      (Snapshot.mk "c0" "created") [] (Config.TIMEOUT none) =
      (sleepFetchEvents 1, PollResult.accessorErr "network down") := by
    rw [wait_for_customer_eq, pollWait_run_err "Customer has invalid state: "
      (fun _ _ => Except.error "network down") [] (Config.TIMEOUT none)
      (fun _ => Snapshot.mk "c0" "created") 1 "network down" (Snapshot.mk "c0" "created")
      (by decide) (by intro j g h1 h2; omega) (by intro j h1 h2; omega)
      (fun g => rfl) (by decide) (by decide)]
  rw [hrun]
  exact ⟨rfl, rfl, by decide⟩

/-- C10, amended: a wait operation called with an empty acceptance set can
never return normally, whatever the accessor does; and when the accessor
never raises, it performs exactly `Config.TIMEOUT` sleeps and fetches and
then raises `BadResultError` carrying the final observed state (the
`Config.TIMEOUT`-th fetched state, or the initial state if the budget is
zero).  If the accessor raises, its error propagates instead (C5). -/
theorem C10_empty_set_amended {ε : Type} (api_get : Nat → String → Except ε Snapshot)
    (seq : Nat → Snapshot) (customer : Snapshot) (envTIMEOUT : Option Nat)
    (hfetch : ∀ j g, api_get j g = Except.ok (seq j)) :
    (∀ (api2 : Nat → String → Except ε Snapshot) (T : Nat) (s : Snapshot),
        (wait_for_customer api2 customer [] T).2 ≠ PollResult.ok s) ∧
      ((wait_for_customer api_get customer [] (Config.TIMEOUT envTIMEOUT)).1.count Ev.fetch =
          Config.TIMEOUT envTIMEOUT ∧
        (wait_for_customer api_get customer [] (Config.TIMEOUT envTIMEOUT)).1.count Ev.sleep =
          Config.TIMEOUT envTIMEOUT) ∧
      (wait_for_customer api_get customer [] (Config.TIMEOUT envTIMEOUT)).2 =
        PollResult.badResult ("Customer has invalid state: " ++
          (lastObserved seq customer (Config.TIMEOUT envTIMEOUT)).state) := by
  refine ⟨?_, ?_, ?_⟩
  · intro api2 T s
    rw [wait_for_customer_eq]
    exact pollWait_empty_never_ok "Customer has invalid state: " api2 customer T s
  · rw [wait_for_customer_eq, pollWait_run_timeout "Customer has invalid state: " api_get
      [] (Config.TIMEOUT envTIMEOUT) seq customer (by simp)
      (fun j g _ _ => hfetch j g) (fun j _ _ => by simp)]
    exact ⟨sleepFetchEvents_count_fetch _, sleepFetchEvents_count_sleep _⟩
  · rw [wait_for_customer_eq, pollWait_run_timeout "Customer has invalid state: " api_get
      [] (Config.TIMEOUT envTIMEOUT) seq customer (by simp)
      (fun j g _ _ => hfetch j g) (fun j _ _ => by simp)]

/-- Witness for the amended C10 with environment timeout 2 and an accessor
stuck at `"waiting"`. -/
theorem C10_empty_set_amended_witness :
    (∀ (api2 : Nat → String → Except Unit Snapshot) (T : Nat) (s : Snapshot),
        (wait_for_customer api2 (Snapshot.mk "c10" "waiting") [] T).2 ≠ PollResult.ok s) ∧
      ((wait_for_customer (ε := Unit) (fun _ _ => Except.ok (Snapshot.mk "c10" "waiting"))
            (Snapshot.mk "c10" "waiting") [] (Config.TIMEOUT (some 2))).1.count Ev.fetch =
          Config.TIMEOUT (some 2) ∧
        (wait_for_customer (ε := Unit) (fun _ _ => Except.ok (Snapshot.mk "c10" "waiting"))
            (Snapshot.mk "c10" "waiting") [] (Config.TIMEOUT (some 2))).1.count Ev.sleep =
          Config.TIMEOUT (some 2)) ∧
      (wait_for_customer (ε := Unit) (fun _ _ => Except.ok (Snapshot.mk "c10" "waiting"))
          (Snapshot.mk "c10" "waiting") [] (Config.TIMEOUT (some 2))).2 =
        PollResult.badResult ("Customer has invalid state: " ++
          (lastObserved (fun _ => Snapshot.mk "c10" "waiting")
            (Snapshot.mk "c10" "waiting") (Config.TIMEOUT (some 2))).state) :=
  C10_empty_set_amended (ε := Unit) (fun _ _ => Except.ok (Snapshot.mk "c10" "waiting"))
    (fun _ => Snapshot.mk "c10" "waiting") (Snapshot.mk "c10" "waiting") (some 2)
    (fun _ _ => rfl)
